import Mathlib

/-
  Verification of the server-side simulation core of bevy-online-campus
  (src/bin/server.rs), as a shallow embedding.

  Modelling conventions:
  * f32 values are modelled as exact rationals (ℚ); the claims under study
    are about the algorithms (control flow, exact comparisons, interpolation
    formulas), not about bit-level rounding of IEEE floats.
  * u16/u32/u64 counters (hp, ammo, sequence numbers, ids) are modelled as ℕ.
    Rust saturating_sub corresponds to truncated ℕ subtraction; all upward
    writes in the program are bounded constants (100, MAG_SIZE, ...), so u16
    overflow is unreachable and ℕ is a faithful model.
  * HashMap resources are modelled as association lists with first-match
    lookup; iteration order of a HashMap is arbitrary in Rust, and the
    theorems below only state order-independent facts (or quantify over the
    list, which plays the role of an arbitrary iteration order).
  * The rapier physics collaborator is consumed only through cast_ray; it is
    modelled as an oracle function parameter (origin, dir, max_toi, excluded
    collider) → Option (collider, toi).
  * The f32 primitives sin/cos/sqrt used by the code are not algebraic over
    ℚ; they are abstracted as function parameters of a Geom record.  Every
    theorem quantifying over them holds for any instantiation, and witnesses
    instantiate them at inputs where the true values are rational.
-/

namespace Campus

/-- Association list lookup: first entry with the given key (models
HashMap::get up to iteration order). -/
def lookupA {α : Type} : List (Nat × α) → Nat → Option α
  | [], _ => none
  | (k, v) :: rest, key => if k = key then some v else lookupA rest key

/-- Lookup with a default value (models HashMap::entry(..).or_insert(d) reads). -/
def lookupD {α : Type} (l : List (Nat × α)) (key : Nat) (d : α) : α :=
  (lookupA l key).getD d

/-- Update the first entry with the given key, or append a new entry
(models HashMap::insert / entry().or_insert followed by mutation). -/
def setKey {α : Type} : List (Nat × α) → Nat → α → List (Nat × α)
  | [], key, v => [(key, v)]
  | (k, w) :: rest, key, v =>
      if k = key then (k, v) :: rest else (k, w) :: setKey rest key v

/-- Remove the first entry with the given key (models HashMap::remove). -/
def eraseKey {α : Type} : List (Nat × α) → Nat → List (Nat × α)
  | [], _ => []
  | (k, w) :: rest, key => if k = key then rest else (k, w) :: eraseKey rest key

theorem lookupA_setKey_self {α : Type} (l : List (Nat × α)) (k : Nat) (v : α) :
    lookupA (setKey l k v) k = some v := by
  induction l with
  | nil => simp [setKey, lookupA]
  | cons hd tl ih =>
      obtain ⟨k', v'⟩ := hd
      by_cases h : k' = k <;> simp [setKey, lookupA, h, ih]

theorem lookupA_setKey_ne {α : Type} (l : List (Nat × α)) (k a : Nat) (v : α)
    (h : a ≠ k) : lookupA (setKey l k v) a = lookupA l a := by
  have hka : ¬ k = a := Ne.symm h
  induction l with
  | nil => simp [setKey, lookupA, hka]
  | cons hd tl ih =>
      obtain ⟨k', v'⟩ := hd
      by_cases hk : k' = k
      · subst hk
        simp [setKey, lookupA, hka]
      · by_cases ha : k' = a <;> simp [setKey, lookupA, hk, ha, ih, h]

theorem lookupD_setKey_ne {α : Type} (l : List (Nat × α)) (k a : Nat) (v d : α)
    (h : a ≠ k) : lookupD (setKey l k v) a d = lookupD l a d := by
  simp [lookupD, lookupA_setKey_ne l k a v h]

/-- Every entry of setKey is either the written pair or an entry of the
original list. -/
theorem mem_setKey {α : Type} (l : List (Nat × α)) (k : Nat) (v : α) :
    ∀ e ∈ setKey l k v, e = (k, v) ∨ e ∈ l := by
  induction l with
  | nil => simp [setKey]
  | cons hd tl ih =>
      obtain ⟨k', v'⟩ := hd
      by_cases h : k' = k
      · subst h
        intro e he
        simp [setKey] at he
        rcases he with he | he
        · exact Or.inl (by simp [he])
        · exact Or.inr (by simp [he])
      · intro e he
        simp [setKey, h] at he
        rcases he with he | he
        · exact Or.inr (by simp [he])
        · rcases ih e he with h1 | h1
          · exact Or.inl h1
          · exact Or.inr (by simp [h1])

theorem mem_eraseKey {α : Type} (l : List (Nat × α)) (k : Nat) :
    ∀ e ∈ eraseKey l k, e ∈ l := by
  induction l with
  | nil => simp [eraseKey]
  | cons hd tl ih =>
      obtain ⟨k', v'⟩ := hd
      by_cases h : k' = k
      · intro e he
        simp [eraseKey, h] at he
        exact List.mem_cons_of_mem _ he
      · intro e he
        simp [eraseKey, h] at he
        rcases he with he | he
        · exact List.mem_cons.mpr (Or.inl (by simp [he]))
        · exact List.mem_cons_of_mem _ (ih e he)

/-- 3D vector over exact rationals (models glam Vec3). -/
structure Vec3 where
  x : ℚ
  y : ℚ
  z : ℚ
deriving DecidableEq

def Vec3.add (a b : Vec3) : Vec3 := ⟨a.x + b.x, a.y + b.y, a.z + b.z⟩

def Vec3.sub (a b : Vec3) : Vec3 := ⟨a.x - b.x, a.y - b.y, a.z - b.z⟩

def Vec3.smul (a : Vec3) (s : ℚ) : Vec3 := ⟨a.x * s, a.y * s, a.z * s⟩

def Vec3.dot (a b : Vec3) : ℚ := a.x * b.x + a.y * b.y + a.z * b.z

/-- Squared length, exact (models Vec3::length_squared). -/
def Vec3.len2 (a : Vec3) : ℚ := a.x * a.x + a.y * a.y + a.z * a.z

def lerpQ (a b s : ℚ) : ℚ := a + (b - a) * s

/-- glam Vec3::lerp: self + (rhs - self) * s, componentwise. -/
def Vec3.lerpV (a b : Vec3) (s : ℚ) : Vec3 :=
  ⟨lerpQ a.x b.x s, lerpQ a.y b.y s, lerpQ a.z b.z s⟩

/-- Rust f32::clamp(lo, hi) = self.max(lo).min(hi). -/
def clampQ (x lo hi : ℚ) : ℚ := min (max x lo) hi

/-- Abstracted f32 numeric primitives used by the code (sin, cos, sqrt).
The claims do not depend on their analytic properties; theorems hold for
every instantiation. -/
structure Geom where
  sinF : ℚ → ℚ
  cosF : ℚ → ℚ
  sqrtF : ℚ → ℚ

/-- Vec3::length via the abstracted sqrt. -/
def Vec3.lenG (g : Geom) (a : Vec3) : ℚ := g.sqrtF a.len2

/-- Vec3::normalize = self / self.length() via the abstracted sqrt
(ℚ division by zero yields 0, an arbitrary but fixed model value on the
degenerate inputs the program filters out beforehand). -/
def Vec3.normG (g : Geom) (a : Vec3) : Vec3 :=
  let len := a.lenG g
  ⟨a.x / len, a.y / len, a.z / len⟩

/-- Quat::from_rotation_y(yaw) * Quat::from_rotation_x(pitch) * Vec3::NEG_Z,
written out as the rotation it denotes, over the abstracted sin/cos. -/
def forwardFromYawPitch (g : Geom) (yaw pitch : ℚ) : Vec3 :=
  ⟨-(g.sinF yaw) * g.cosF pitch, g.sinF pitch, -(g.cosF yaw) * g.cosF pitch⟩

-- ===== Constants copied from src/bin/server.rs =====

def MAG_SIZE : Nat := 12
def RELOAD_TIME : ℚ := 8/5
def FIRE_COOLDOWN : ℚ := 1 / (15/2)
def BOT_FIRE_COOLDOWN : ℚ := 18/100
def BOT_DMG : Nat := 1
def BOT_REACT_SEC : ℚ := 1/4
def BOT_FIRE_RANGE : ℚ := 60
def PROTECT_SEC : ℚ := 2
def LAG_COMP_SEC : ℚ := 1/10
def HIT_HEIGHT_HALF : ℚ := 6/10
def HIT_RADIUS : ℚ := 3/10
def WIN_KILLS : Nat := 10
def ROUND_TIME_SEC : ℚ := 300
def ROUND_END_DELAY_SEC : ℚ := 5
def SCAFFOLD_LIFETIME : ℚ := 10
def SCAFFOLD_PER_PLAYER_LIMIT : Nat := 3
def HUMAN_DMG : Nat := 35

-- ===== Data model =====

/-- PlayerState / BotState (identical field layout in the source). -/
structure ActorState where
  pos : Vec3
  yaw : ℚ
  hp : Nat
  alive : Bool
  vy : ℚ
  grounded : Bool
deriving DecidableEq

structure WeaponStatus where
  ammo : Nat
  cooldown : ℚ
  reload : ℚ
deriving DecidableEq

/-- Default WeaponStatus (Rust Default derive: zeroes). -/
def weaponZero : WeaponStatus := ⟨0, 0, 0⟩

/-- The fresh magazine inserted by entry(..).or_insert in the combat paths. -/
def weaponFull : WeaponStatus := ⟨MAG_SIZE, 0, 0⟩

structure InputFrame where
  seq : Nat
  mvx : ℚ
  mvz : ℚ
  run : Bool
  jump : Bool
  fire : Bool
  yaw : ℚ
  pitch : ℚ
deriving DecidableEq

inductive ActorKind where
  | human
  | bot
deriving DecidableEq

inductive RoundPhase where
  | active
  | ending
deriving DecidableEq

inductive EventMsg where
  | spawnEv (id : Nat) (pos : Vec3) (kind : ActorKind)
  | despawnEv (id : Nat)
  | hitEv (target : Nat) (newHp : Nat) (shooter : Nat)
  | deathEv (target : Nat) (shooter : Nat)
  | roundStartEv (timeLeftSec : ℚ)
  | roundEndEv (winner : Option Nat) (nextInSec : ℚ)
  | ammoEv (id : Nat) (ammo : Nat) (reloading : Bool)
  | fireEv (id : Nat) (origin : Vec3) (dir : Vec3) (hit : Option Vec3)
  | scaffoldSpawnEv (sid : Nat) (owner : Nat) (pos : Vec3)
  | scaffoldDespawnEv (sid : Nat)
deriving DecidableEq

-- ===== Lag compensation: rewind_pos (server.rs lines 966-984) =====

/-- Last element of a nonempty walk (the VecDeque back pointer as tracked by
the prev variable of the Rust loop). -/
def backOf (hd : ℚ × Vec3) : List (ℚ × Vec3) → (ℚ × Vec3)
  | [] => hd
  | x :: xs => backOf x xs

/-- The bracketing-segment search loop of rewind_pos: prev tracks the
previous sample; the first sample with time ≥ t_target is interpolated
against prev; if none exists the loop falls through to the back sample. -/
def rewindFind (tq : ℚ) : (ℚ × Vec3) → List (ℚ × Vec3) → Vec3
  | prev, [] => prev.2
  | prev, (t, p) :: rest =>
      if tq ≤ t then
        Vec3.lerpV prev.2 p (clampQ ((tq - prev.1) / (t - prev.1)) 0 1)
      else rewindFind tq (t, p) rest

/-- rewind_pos: clamp to the oldest/newest retained sample outside the
window, otherwise linearly interpolate the bracketing samples. -/
def rewind_pos (hist : List (Nat × List (ℚ × Vec3))) (id : Nat) (tq : ℚ) :
    Option Vec3 :=
  match lookupA hist id with
  | none => none
  | some [] => none
  | some ((t0, p0) :: rest) =>
      if tq ≤ t0 then some p0
      else if (backOf (t0, p0) rest).1 ≤ tq then some (backOf (t0, p0) rest).2
      else some (rewindFind tq (t0, p0) ((t0, p0) :: rest))

/-- Strictly increasing timestamps, the Position History invariant the
sampler maintains (one sample per tick at a strictly growing SimTime). -/
def ltT (a b : ℚ × Vec3) : Prop := a.1 < b.1

instance : IsTrans (ℚ × Vec3) ltT := ⟨fun _ _ _ h1 h2 => lt_trans h1 h2⟩

instance : DecidableRel ltT := fun a b => inferInstanceAs (Decidable (a.1 < b.1))

def TimesSorted (dq : List (ℚ × Vec3)) : Prop := List.Chain' ltT dq

instance (dq : List (ℚ × Vec3)) : Decidable (TimesSorted dq) :=
  inferInstanceAs (Decidable (List.Chain' ltT dq))

theorem lerpQ_one (a b : ℚ) : lerpQ a b 1 = b := by simp [lerpQ]

theorem lerpV_one (a b : Vec3) : Vec3.lerpV a b 1 = b := by
  cases b
  simp [Vec3.lerpV, lerpQ_one]

theorem clampQ_eq_self (x : ℚ) (h0 : 0 ≤ x) (h1 : x ≤ 1) : clampQ x 0 1 = x := by
  simp [clampQ, max_eq_left h0, min_eq_left h1]

theorem backOf_append_last (hd y : ℚ × Vec3) (xs : List (ℚ × Vec3)) :
    backOf hd (xs ++ [y]) = y := by
  induction xs generalizing hd with
  | nil => simp [backOf]
  | cons x xs ih => simp [backOf, ih]

theorem backOf_of_concat (hd : ℚ × Vec3) (l u : List (ℚ × Vec3)) (z : ℚ × Vec3)
    (h : hd :: l = u ++ [z]) : backOf hd l = z := by
  cases u with
  | nil =>
      simp at h
      simp [h.1, h.2, backOf]
  | cons w u' =>
      simp at h
      rw [h.2]
      exact backOf_append_last hd z u'

theorem rewindFind_skip (tq : ℚ) (prev : ℚ × Vec3) (pre rest : List (ℚ × Vec3))
    (h : ∀ x ∈ pre, x.1 < tq) :
    rewindFind tq prev (pre ++ rest) = rewindFind tq (backOf prev pre) rest := by
  induction pre generalizing prev with
  | nil => simp [backOf]
  | cons x xs ih =>
      obtain ⟨t, p⟩ := x
      have ht : ¬ tq ≤ t := not_le.mpr (h (t, p) (by simp))
      show rewindFind tq prev ((t, p) :: (xs ++ rest)) = _
      rw [show rewindFind tq prev ((t, p) :: (xs ++ rest)) =
            rewindFind tq (t, p) (xs ++ rest) by simp [rewindFind, ht]]
      simp only [backOf]
      exact ih (t, p) (fun y hy => h y (by simp [hy]))

/-- Claim C2 core, part 3 helper: on a strictly sorted history whose samples
bracket the query time, the search loop returns the clamped interpolation of
the bracketing pair. -/
theorem rewind_pos_bracket (hist : List (Nat × List (ℚ × Vec3))) (id : Nat)
    (tq ta tb : ℚ) (pa pb : Vec3) (pre post : List (ℚ × Vec3))
    (hdq : lookupA hist id = some (pre ++ (ta, pa) :: (tb, pb) :: post))
    (hs : TimesSorted (pre ++ (ta, pa) :: (tb, pb) :: post))
    (hlo : ta < tq) (hhi : tq ≤ tb) :
    rewind_pos hist id tq = some (Vec3.lerpV pa pb ((tq - ta) / (tb - ta))) := by
  have hp : List.Pairwise ltT (pre ++ (ta, pa) :: (tb, pb) :: post) :=
    (List.chain'_iff_pairwise).mp hs
  have hpre_lt : ∀ x ∈ pre, x.1 < ta := by
    intro x hx
    exact (List.pairwise_append.mp hp).2.2 x hx (ta, pa) (by simp)
  have hab : ta < tb := by
    have := (List.pairwise_append.mp hp).2.1
    exact (List.pairwise_cons.mp this).1 (tb, pb) (by simp)
  have hden : 0 < tb - ta := by linarith
  have halpha0 : 0 ≤ (tq - ta) / (tb - ta) :=
    div_nonneg (by linarith) (le_of_lt hden)
  have halpha1 : (tq - ta) / (tb - ta) ≤ 1 := by
    rw [div_le_one hden]
    linarith
  have hclamp : clampQ ((tq - ta) / (tb - ta)) 0 1 = (tq - ta) / (tb - ta) :=
    clampQ_eq_self _ halpha0 halpha1
  -- destructure the whole deque as head :: tail
  cases hpre : pre with
  | nil =>
      -- head of the deque is the lower bracketing sample itself
      subst hpre
      simp only [List.nil_append] at hdq hs hp
      have h1 : ¬ tq ≤ ta := not_le.mpr hlo
      simp only [rewind_pos, hdq, if_neg h1]
      have hpost_gt : ∀ x ∈ post, tb < x.1 := by
        have := (List.pairwise_cons.mp ((List.pairwise_cons.mp hp).2)).1
        intro x hx
        exact this x hx
      cases hpost : post with
      | nil =>
          subst hpost
          have hback : backOf (ta, pa) [(tb, pb)] = (tb, pb) := by simp [backOf]
          rw [hback]
          by_cases h2 : tb ≤ tq
          · have htqb : tq = tb := le_antisymm hhi h2
            rw [if_pos h2]
            have : (tq - ta) / (tb - ta) = 1 := by
              rw [htqb]
              field_simp
            rw [this, lerpV_one]
          · rw [if_neg h2]
            have hstep : rewindFind tq (ta, pa) [(ta, pa), (tb, pb)] =
                Vec3.lerpV pa pb (clampQ ((tq - ta) / (tb - ta)) 0 1) := by
              simp [rewindFind, not_le.mpr hlo, hhi]
            rw [hstep, hclamp]
      | cons q qs =>
          subst hpost
          obtain ⟨qs', z, hz⟩ := List.eq_nil_or_concat (q :: qs) |>.resolve_left (by simp)
          have hback : backOf (ta, pa) ((tb, pb) :: q :: qs) = z := by
            apply backOf_of_concat _ _ ((ta, pa) :: (tb, pb) :: qs')
            simp [hz]
          rw [hback]
          have hzmem : z ∈ q :: qs := by
            rw [hz]
            simp
          have hzgt : tb < z.1 := hpost_gt z hzmem
          have h2 : ¬ z.1 ≤ tq := not_le.mpr (lt_of_le_of_lt hhi hzgt)
          rw [if_neg h2]
          have hskip : rewindFind tq (ta, pa) ((ta, pa) :: (tb, pb) :: q :: qs) =
              rewindFind tq (ta, pa) ((tb, pb) :: q :: qs) := by
            have : rewindFind tq (ta, pa) ([(ta, pa)] ++ ((tb, pb) :: q :: qs)) =
                rewindFind tq (backOf (ta, pa) [(ta, pa)]) ((tb, pb) :: q :: qs) :=
              rewindFind_skip tq (ta, pa) [(ta, pa)] _ (by simpa using hlo)
            simpa [backOf] using this
          rw [hskip]
          have hstep : rewindFind tq (ta, pa) ((tb, pb) :: q :: qs) =
              Vec3.lerpV pa pb (clampQ ((tq - ta) / (tb - ta)) 0 1) := by
            simp [rewindFind, hhi]
          rw [hstep, hclamp]
  | cons h0 pre' =>
      subst hpre
      obtain ⟨t0, p0⟩ := h0
      have hdq' : lookupA hist id =
          some ((t0, p0) :: (pre' ++ (ta, pa) :: (tb, pb) :: post)) := by
        simpa using hdq
      have h0lt : t0 < ta := hpre_lt (t0, p0) (by simp)
      have h1 : ¬ tq ≤ t0 := not_le.mpr (lt_trans h0lt hlo)
      simp only [rewind_pos, hdq', if_neg h1]
      -- the back sample is strictly later than tb unless post = [] and back = (tb,pb)
      have hpost_gt : ∀ x ∈ post, tb < x.1 := by
        have hp2 := (List.pairwise_append.mp hp).2.1
        have := (List.pairwise_cons.mp ((List.pairwise_cons.mp hp2).2)).1
        intro x hx
        exact this x hx
      cases hpost : post with
      | nil =>
          subst hpost
          have hback : backOf (t0, p0) (pre' ++ [(ta, pa), (tb, pb)]) = (tb, pb) := by
            apply backOf_of_concat _ _ ((t0, p0) :: pre' ++ [(ta, pa)])
            simp
          rw [hback]
          by_cases h2 : tb ≤ tq
          · have htqb : tq = tb := le_antisymm hhi h2
            rw [if_pos h2]
            have : (tq - ta) / (tb - ta) = 1 := by
              rw [htqb]
              field_simp
            rw [this, lerpV_one]
          · rw [if_neg h2]
            have hskip : rewindFind tq (t0, p0)
                ((t0, p0) :: (pre' ++ [(ta, pa), (tb, pb)])) =
                rewindFind tq (ta, pa) [(tb, pb)] := by
              have hall : ∀ x ∈ (t0, p0) :: pre' ++ [(ta, pa)], x.1 < tq := by
                intro x hx
                simp at hx
                rcases hx with hx | hx | hx
                · rw [hx]
                  exact lt_trans h0lt hlo
                · exact lt_trans (hpre_lt x (by simp [hx])) hlo
                · rw [hx]
                  exact hlo
              have := rewindFind_skip tq (t0, p0) ((t0, p0) :: pre' ++ [(ta, pa)])
                  [(tb, pb)] hall
              have hb : backOf (t0, p0) ((t0, p0) :: pre' ++ [(ta, pa)]) = (ta, pa) := by
                simpa using backOf_append_last (t0, p0) (ta, pa) ((t0, p0) :: pre')
              rw [hb] at this
              simpa using this
            rw [hskip]
            have hstep : rewindFind tq (ta, pa) [(tb, pb)] =
                Vec3.lerpV pa pb (clampQ ((tq - ta) / (tb - ta)) 0 1) := by
              simp [rewindFind, hhi]
            rw [hstep, hclamp]
      | cons q qs =>
          subst hpost
          obtain ⟨qs', z, hz⟩ := List.eq_nil_or_concat (q :: qs) |>.resolve_left (by simp)
          have hback : backOf (t0, p0) (pre' ++ (ta, pa) :: (tb, pb) :: q :: qs) = z := by
            apply backOf_of_concat _ _ ((t0, p0) :: pre' ++ (ta, pa) :: (tb, pb) :: qs')
            simp [hz]
          rw [hback]
          have hzmem : z ∈ q :: qs := by
            rw [hz]
            simp
          have hzgt : tb < z.1 := hpost_gt z hzmem
          have h2 : ¬ z.1 ≤ tq := not_le.mpr (lt_of_le_of_lt hhi hzgt)
          rw [if_neg h2]
          have hskip : rewindFind tq (t0, p0)
              ((t0, p0) :: (pre' ++ (ta, pa) :: (tb, pb) :: q :: qs)) =
              rewindFind tq (ta, pa) ((tb, pb) :: q :: qs) := by
            have hall : ∀ x ∈ (t0, p0) :: pre' ++ [(ta, pa)], x.1 < tq := by
              intro x hx
              simp at hx
              rcases hx with hx | hx | hx
              · rw [hx]
                exact lt_trans h0lt hlo
              · exact lt_trans (hpre_lt x (by simp [hx])) hlo
              · rw [hx]
                exact hlo
            have := rewindFind_skip tq (t0, p0) ((t0, p0) :: pre' ++ [(ta, pa)])
                ((tb, pb) :: q :: qs) hall
            have hb : backOf (t0, p0) ((t0, p0) :: pre' ++ [(ta, pa)]) = (ta, pa) := by
              simpa using backOf_append_last (t0, p0) (ta, pa) ((t0, p0) :: pre')
            rw [hb] at this
            simpa using this
          rw [hskip]
          have hstep : rewindFind tq (ta, pa) ((tb, pb) :: q :: qs) =
              Vec3.lerpV pa pb (clampQ ((tq - ta) / (tb - ta)) 0 1) := by
            simp [rewindFind, hhi]
          rw [hstep, hclamp]

theorem backOf_mem (hd : ℚ × Vec3) (l : List (ℚ × Vec3)) : backOf hd l ∈ hd :: l := by
  induction l generalizing hd with
  | nil => simp [backOf]
  | cons x xs ih =>
      simp only [backOf]
      exact List.mem_cons_of_mem hd (ih x)

/-- Claim C2: the rewound position is the pure function rewind_pos of the
history and the query time; it clamps to the oldest (resp. newest) sample
at or outside the window ends, linearly interpolates the two bracketing
samples otherwise, and a query exactly at a stored sample timestamp yields
that sample's position exactly. -/
theorem rewound_position_spec (hist : List (Nat × List (ℚ × Vec3))) (id : Nat)
    (tq t0 : ℚ) (p0 : Vec3) (rest : List (ℚ × Vec3))
    (hdq : lookupA hist id = some ((t0, p0) :: rest))
    (hs : TimesSorted ((t0, p0) :: rest)) :
    (tq ≤ t0 → rewind_pos hist id tq = some p0) ∧
    ((backOf (t0, p0) rest).1 ≤ tq →
       rewind_pos hist id tq = some (backOf (t0, p0) rest).2) ∧
    (∀ pre ta pa tb pb post,
       (t0, p0) :: rest = pre ++ (ta, pa) :: (tb, pb) :: post →
       ta < tq → tq ≤ tb →
       rewind_pos hist id tq = some (Vec3.lerpV pa pb ((tq - ta) / (tb - ta)))) ∧
    (∀ t p, (t, p) ∈ (t0, p0) :: rest → tq = t →
       rewind_pos hist id tq = some p) := by
  have hp : List.Pairwise ltT ((t0, p0) :: rest) := (List.chain'_iff_pairwise).mp hs
  have part3 : ∀ pre ta pa tb pb post,
      (t0, p0) :: rest = pre ++ (ta, pa) :: (tb, pb) :: post →
      ta < tq → tq ≤ tb →
      rewind_pos hist id tq = some (Vec3.lerpV pa pb ((tq - ta) / (tb - ta))) := by
    intro pre ta pa tb pb post heq hlo hhi
    exact rewind_pos_bracket hist id tq ta tb pa pb pre post
      (by rw [hdq, heq]) (by rw [← heq]; exact hs) hlo hhi
  refine ⟨?_, ?_, part3, ?_⟩
  · intro h
    simp only [rewind_pos, hdq, if_pos h]
  · intro h
    by_cases h1 : tq ≤ t0
    · cases hrest : rest with
      | nil =>
          subst hrest
          simp only [backOf] at h ⊢
          simp only [rewind_pos, hdq, if_pos h1]
      | cons x xs =>
          exfalso
          subst hrest
          have hbmem : backOf (t0, p0) (x :: xs) ∈ x :: xs := by
            simp only [backOf]
            exact backOf_mem x xs
          have hlt : t0 < (backOf (t0, p0) (x :: xs)).1 :=
            (List.pairwise_cons.mp hp).1 _ hbmem
          have := le_trans h h1
          linarith
    · simp only [rewind_pos, hdq, if_neg h1, if_pos h]
  · intro t p hmem htq
    obtain ⟨s, u, hsu⟩ := List.append_of_mem hmem
    rcases List.eq_nil_or_concat s with hnil | ⟨s', last, hlast⟩
    · subst hnil
      rw [List.nil_append] at hsu
      injection hsu with h1 h2
      injection h1 with ht hpp
      subst ht
      subst hpp
      simp only [rewind_pos, hdq, if_pos (le_of_eq htq)]
    · subst hlast
      obtain ⟨tl, pl⟩ := last
      rw [List.concat_eq_append, List.append_assoc, List.singleton_append] at hsu
      have hadj : tl < t := by
        have hp' : List.Pairwise ltT (s' ++ (tl, pl) :: (t, p) :: u) := hsu ▸ hp
        have := (List.pairwise_append.mp hp').2.1
        exact (List.pairwise_cons.mp this).1 (t, p) (by simp)
      have := part3 s' tl pl t p u hsu (by rw [htq]; exact hadj)
        (le_of_eq htq)
      rw [this]
      have hne : t - tl ≠ 0 := sub_ne_zero.mpr (Ne.symm (ne_of_lt hadj))
      have hone : (tq - tl) / (t - tl) = 1 := by
        rw [htq]
        exact div_self hne
      rw [hone, lerpV_one]

/-- Witness for rewound_position_spec: a three-sample history queried inside
the middle segment. -/
theorem rewound_position_spec_witness :
    rewind_pos [(7, [(0, (⟨0, 0, 0⟩ : Vec3)), (1, ⟨2, 0, 0⟩), (3, ⟨6, 0, 4⟩)])] 7 2 =
      some (Vec3.lerpV ⟨2, 0, 0⟩ ⟨6, 0, 4⟩ ((2 - 1) / (3 - 1))) :=
  (rewound_position_spec
      [(7, [(0, ⟨0, 0, 0⟩), (1, ⟨2, 0, 0⟩), (3, ⟨6, 0, 4⟩)])] 7 2 0 ⟨0, 0, 0⟩
      [(1, ⟨2, 0, 0⟩), (3, ⟨6, 0, 4⟩)] (by decide)
      (by simp [TimesSorted, ltT])).2.2.1
    [(0, ⟨0, 0, 0⟩)] 1 ⟨2, 0, 0⟩ 3 ⟨6, 0, 4⟩ [] (by decide) (by norm_num) (by norm_num)

-- ===== Server tick state and environment =====

/-- The rapier cast_ray capability: origin, dir, max_toi, excluded collider ↦
first obstruction (collider entity, time of impact), or none. -/
def World : Type := Vec3 → Vec3 → ℚ → Option Nat → Option (Nat × ℚ)

/-- Read-only per-tick context: numeric primitives, physics oracle, the
id → collider-entity maps, spawn points, the USE_SPAWN_POINTS toggle
(cf. the configuration-struct modelling of environment variables), and the
fixed-timestep dt. -/
structure Env where
  geom : Geom
  world : World
  ents : List (Nat × Nat)
  botEnts : List (Nat × Nat)
  spawns : List Vec3
  useSpawnPoints : Bool
  dt : ℚ

inductive BotFsm where
  | wander
  | seek
  | combat
  | lost
deriving DecidableEq

/-- The ECS resources owned by the simulation core, bundled. -/
structure SrvState where
  players : List (Nat × ActorState)
  bots : List (Nat × ActorState)
  weapons : List (Nat × WeaponStatus)
  lastFire : List (Nat × Nat)
  protect : List (Nat × ℚ)
  respawns : List (Nat × ℚ)
  botRespawns : List (Nat × ℚ)
  scores : List (Nat × Nat × Nat)
  hist : List (Nat × List (ℚ × Vec3))
  simTime : ℚ
  fires : List (Nat × Vec3 × Vec3)
  lastInputs : List (Nat × InputFrame)
  phase : RoundPhase
  timeLeft : ℚ
  endTimer : ℚ
  jumps : List (Nat × Nat)
  botFSM : List (Nat × BotFsm × ℚ)
  botFocus : List (Nat × Option Nat × ℚ)
deriving DecidableEq

-- ===== ray_cylinder_hit (server.rs lines 986-1006) =====

/-- Upright-cylinder intersection used by the lag-compensated geometric test. -/
def ray_cylinder_hit (g : Geom) (origin dir : Vec3) (range : ℚ) (center : Vec3)
    (half_h radius : ℚ) : Option ℚ :=
  let dx := dir.x
  let dz := dir.z
  let dy := dir.y
  let a := dx * dx + dz * dz
  if a < 1/1000000 then none
  else
    let ox := origin.x - center.x
    let oz := origin.z - center.z
    let oy := origin.y
    let b := 2 * (dx * ox + dz * oz)
    let c := ox * ox + oz * oz - radius * radius
    let disc := b * b - 4 * a * c
    if disc < 0 then none
    else
      let sd := g.sqrtF disc
      let ta := (-b - sd) / (2 * a)
      let tb := (-b + sd) / (2 * a)
      let tlo := if ta > tb then tb else ta
      let thi := if ta > tb then ta else tb
      let okT : ℚ → Bool := fun t =>
        if (0 ≤ t ∧ t ≤ range) ∧
           (center.y - half_h - 5/100 ≤ oy + dy * t ∧
            oy + dy * t ≤ center.y + half_h + 5/100) then true else false
      if okT tlo then some tlo else if okT thi then some thi else none

-- ===== Combat resolution (srv_shoot_and_respawn) =====

/-- Weapon timer tick for one entry (lines 1146-1157): cooldown and reload
count down clamped at zero; reload reaching zero refills the magazine and
reports completion. -/
def tickWeapon (dt : ℚ) (w : WeaponStatus) : WeaponStatus × Bool :=
  let cd := if w.cooldown > 0 then max (w.cooldown - dt) 0 else w.cooldown
  if w.reload > 0 then
    let re := max (w.reload - dt) 0
    if re = 0 then ({ ammo := MAG_SIZE, cooldown := cd, reload := 0 }, true)
    else ({ ammo := w.ammo, cooldown := cd, reload := re }, false)
  else ({ ammo := w.ammo, cooldown := cd, reload := w.reload }, false)

def tickWeapons (dt : ℚ) : List (Nat × WeaponStatus) →
    List (Nat × WeaponStatus) × List EventMsg
  | [] => ([], [])
  | (id, w) :: rest =>
      let r := tickWeapon dt w
      let rec' := tickWeapons dt rest
      ((id, r.1) :: rec'.1,
       (if r.2 then [EventMsg.ammoEv id r.1.ammo false] else []) ++ rec'.2)

/-- Protection timer tick (line 1340). -/
def tickProtect (dt : ℚ) (l : List (Nat × ℚ)) : List (Nat × ℚ) :=
  l.map (fun e => (e.1, if e.2 > 0 then max (e.2 - dt) 0 else e.2))

/-- The frozen per-tick snapshot (lines 1172-1177): humans then bots. -/
def snapOf (st : SrvState) : List (Nat × Vec3 × Bool) :=
  st.players.map (fun e => (e.1, e.2.pos, e.2.alive)) ++
    st.bots.map (fun e => (e.1, e.2.pos, e.2.alive))

/-- Drain PendingFires into the per-shooter firemap (lines 1179-1182):
zero-ish directions dropped, later requests overwrite, directions normalized. -/
def buildFiremap (g : Geom) (l : List (Nat × Vec3 × Vec3)) :
    List (Nat × Vec3 × Vec3) :=
  l.foldl
    (fun fm e =>
      if (1/1000000 : ℚ) < e.2.2.len2 then setKey fm e.1 (e.2.1, Vec3.normG g e.2.2)
      else fm)
    []

/-- Rewind-and-cylinder candidate fold of the explicit-fire path
(lines 1205-1206): smallest positive cylinder intersection distance over the
given actor map, threaded through an accumulator. -/
def bestCylinderHit (g : Geom) (hist : List (Nat × List (ℚ × Vec3))) (tq : ℚ)
    (origin forward : Vec3) (range : ℚ) (selfId : Nat) :
    List (Nat × ActorState) → Option (Nat × ℚ) → Option (Nat × ℚ)
  | [], best => best
  | (tid, a) :: rest, best =>
      let best' :=
        if tid ≠ selfId ∧ a.alive = true then
          match rewind_pos hist tid tq with
          | none => best
          | some cpos =>
              match ray_cylinder_hit g origin forward range cpos HIT_HEIGHT_HALF
                  HIT_RADIUS with
              | none => best
              | some t =>
                  match best with
                  | none => some (tid, t)
                  | some (bid, bt) => if t < bt then some (tid, t) else some (bid, bt)
        else best
      bestCylinderHit g hist tq origin forward range selfId rest best'

/-- The Fire-event impact-distance fold of the continuous path
(lines 1261-1262): same cylinder test, only the smallest distance kept. -/
def bestCylinderT (g : Geom) (hist : List (Nat × List (ℚ × Vec3))) (tq : ℚ)
    (origin forward : Vec3) (range : ℚ) (selfId : Nat) :
    List (Nat × ActorState) → Option ℚ → Option ℚ
  | [], best => best
  | (tid, a) :: rest, best =>
      let best' :=
        if tid ≠ selfId ∧ a.alive = true then
          match rewind_pos hist tid tq with
          | none => best
          | some cpos =>
              match ray_cylinder_hit g origin forward range cpos HIT_HEIGHT_HALF
                  HIT_RADIUS with
              | none => best
              | some t =>
                  match best with
                  | none => some t
                  | some bt => if t < bt then some t else some bt
        else best
      bestCylinderT g hist tq origin forward range selfId rest best'

/-- Snapshot-based ray-proximity candidate fold of the continuous path
(lines 1267-1277). -/
def bestRayProx (origin forward : Vec3) (range : ℚ) (selfId : Nat) :
    List (Nat × Vec3 × Bool) → Option (Nat × ℚ) → Option (Nat × ℚ)
  | [], best => best
  | (oid, opos, oalive) :: rest, best =>
      let best' :=
        if oid = selfId ∨ oalive = false then best
        else
          let target := opos.add ⟨0, 7/10, 0⟩
          let t := clampQ ((target.sub origin).dot forward) 0 range
          let closest := origin.add (forward.smul t)
          let dist2 := (target.sub closest).len2
          if dist2 ≤ (35/100) * (35/100) then
            match best with
            | none => some (oid, t)
            | some (bid, bt) => if t < bt then some (oid, t) else some (bid, bt)
          else best
      bestRayProx origin forward range selfId rest best'

/-- Explicit-path occlusion validation (lines 1208-1217): the provisional
candidate is accepted only when the current-world ray, shooter excluded,
first meets the candidate's own collider. -/
def explicitOcc (env : Env) (id : Nat) (origin forward : Vec3)
    (best : Option (Nat × ℚ)) : Option Nat × Option Vec3 :=
  match best with
  | none => (none, none)
  | some (hid, tHit) =>
      match env.world origin forward tHit (lookupA env.ents id) with
      | some (hitEnt, _) =>
          if some hitEnt = lookupA env.ents hid ∨
             some hitEnt = lookupA env.botEnts hid then
            (some hid, some (origin.add (forward.smul tHit)))
          else (none, none)
      | none => (none, none)

/-- Damage application to a human victim on the explicit path
(lines 1221-1222): fixed 35 damage, death bookkeeping and the kill credit;
no deaths increment and no auto-reload on this path. -/
def damageHumanExp (id hitId : Nat) (hit : ActorState) (st : SrvState) :
    SrvState × List EventMsg :=
  if hit.alive = true then
    let newHp := hit.hp - HUMAN_DMG
    let st1 := { st with
      players := setKey st.players hitId { hit with hp := newHp } }
    let evH := [EventMsg.hitEv hitId newHp id]
    if newHp = 0 then
      let st2 := { st1 with
        players := setKey st1.players hitId { hit with hp := newHp, alive := false },
        respawns := setKey st1.respawns hitId 2,
        scores :=
          if (lookupA st1.players id).isSome then
            setKey st1.scores id
              ((lookupD st1.scores id (0, 0)).1 + 1, (lookupD st1.scores id (0, 0)).2)
          else st1.scores }
      (st2, evH ++ [EventMsg.deathEv hitId id])
    else (st1, evH)
  else (st, [])

/-- Damage application to a bot victim on the explicit path (lines
1223-1224). -/
def damageBotExp (id hitId : Nat) (hit : ActorState) (st : SrvState) :
    SrvState × List EventMsg :=
  if hit.alive = true then
    let newHp := hit.hp - HUMAN_DMG
    let st1 := { st with bots := setKey st.bots hitId { hit with hp := newHp } }
    let evH := [EventMsg.hitEv hitId newHp id]
    if newHp = 0 then
      let st2 := { st1 with
        bots := setKey st1.bots hitId { hit with hp := newHp, alive := false },
        botRespawns := setKey st1.botRespawns hitId 2 }
      (st2, evH ++ [EventMsg.deathEv hitId id])
    else (st1, evH)
  else (st, [])

/-- The post-consumption portion of the explicit-fire path (lines 1201-1227):
rewind+cylinder candidate selection, current-world occlusion validation, the
Fire event, and damage application. -/
def explicitFireResolve (env : Env) (id : Nat) (origin forward : Vec3)
    (st : SrvState) : SrvState × List EventMsg :=
  let tQuery := st.simTime - LAG_COMP_SEC
  let range : ℚ := 100
  let best := bestCylinderHit env.geom st.hist tQuery origin forward range id
    st.bots (bestCylinderHit env.geom st.hist tQuery origin forward range id
      st.players none)
  let occ := explicitOcc env id origin forward best
  let ev2 := [EventMsg.fireEv id origin forward occ.2]
  match occ.1 with
  | none => (st, ev2)
  | some hitId =>
      if lookupD st.protect hitId (0 : ℚ) ≤ 0 then
        match lookupA st.players hitId with
        | some hit =>
            let r := damageHumanExp id hitId hit st
            (r.1, ev2 ++ r.2)
        | none =>
            match lookupA st.bots hitId with
            | some hit =>
                let r := damageBotExp id hitId hit st
                (r.1, ev2 ++ r.2)
            | none => (st, ev2)
      else (st, ev2)

/-- Explicit-fire-request processing for one shooter (lines 1187-1229).
Note: the source records the latest input sequence and gates on reload,
cooldown and protection only; the shooter's alive flag is not consulted on
this path. -/
def explicitFireStep (env : Env) (id : Nat) (inp : InputFrame)
    (origin forward : Vec3) (st0 : SrvState) : SrvState × List EventMsg :=
  let w := lookupD st0.weapons id weaponFull
  let st := { st0 with lastFire := setKey st0.lastFire id inp.seq,
                       weapons := setKey st0.weapons id w }
  if w.reload ≤ 0 ∧ w.cooldown ≤ 0 ∧ lookupD st.protect id (0 : ℚ) ≤ 0 then
    if w.ammo = 0 then
      let w' := if w.reload ≤ 0 then { w with reload := RELOAD_TIME } else w
      ({ st with weapons := setKey st.weapons id w' }, [EventMsg.ammoEv id w.ammo true])
    else
      let w' : WeaponStatus := { ammo := w.ammo - 1, cooldown := FIRE_COOLDOWN,
                                 reload := w.reload }
      let stF := { st with weapons := setKey st.weapons id w' }
      let r := explicitFireResolve env id origin forward stF
      (r.1, EventMsg.ammoEv id w'.ammo false :: r.2)
  else (st, [])

/-- Continuous-path occlusion check (lines 1281-1289): the current-world ray
is cast only when the provisional target id is in the players map — a bot
target skips the check entirely. -/
def contOccludedChk (env : Env) (id hitId : Nat) (origin forward : Vec3)
    (tHit : ℚ) (st : SrvState) : Bool :=
  if (lookupA st.players hitId).isSome then
    match env.world origin forward tHit (lookupA env.ents id) with
    | some (hitEnt, _) =>
        if some hitEnt = lookupA env.ents hitId ∨
           some hitEnt = lookupA env.botEnts hitId then false else true
    | none => false
  else false

/-- Damage application to a human victim on the continuous path
(lines 1290-1319): kill and death score credit and kill auto-reload. -/
def damageHumanCont (id hitId : Nat) (hit : ActorState) (st : SrvState) :
    SrvState × List EventMsg :=
  if hit.alive = true then
    let newHp := hit.hp - HUMAN_DMG
    let st1 := { st with
      players := setKey st.players hitId { hit with hp := newHp } }
    let evH := [EventMsg.hitEv hitId newHp id]
    if newHp = 0 then
      let st2 := { st1 with
        players := setKey st1.players hitId { hit with hp := newHp, alive := false },
        respawns := setKey st1.respawns hitId 2 }
      let st3 := { st2 with
        scores :=
          if (lookupA st2.players id).isSome then
            setKey st2.scores id
              ((lookupD st2.scores id (0, 0)).1 + 1, (lookupD st2.scores id (0, 0)).2)
          else st2.scores }
      let st4 := { st3 with
        scores :=
          if (lookupA st3.players hitId).isSome then
            setKey st3.scores hitId
              ((lookupD st3.scores hitId (0, 0)).1, (lookupD st3.scores hitId (0, 0)).2 + 1)
          else st3.scores }
      -- (the Score-table broadcast is a ServerMessage, not an EventMsg; it is
      --  outside the event model)
      let ww := lookupD st4.weapons id weaponFull
      if ww.ammo = 0 ∧ ww.reload ≤ 0 then
        ({ st4 with
           weapons := setKey st4.weapons id ({ ww with reload := RELOAD_TIME }) },
         evH ++ [EventMsg.deathEv hitId id, EventMsg.ammoEv id 0 true])
      else
        (st4, evH ++ [EventMsg.deathEv hitId id])
    else (st1, evH)
  else (st, [])

/-- Damage application to a bot victim on the continuous path
(lines 1320-1335). -/
def damageBotCont (id hitId : Nat) (hit : ActorState) (st : SrvState) :
    SrvState × List EventMsg :=
  if hit.alive = true then
    let newHp := hit.hp - HUMAN_DMG
    let st1 := { st with bots := setKey st.bots hitId { hit with hp := newHp } }
    let evH := [EventMsg.hitEv hitId newHp id]
    if newHp = 0 then
      let st2 := { st1 with
        bots := setKey st1.bots hitId { hit with hp := newHp, alive := false },
        botRespawns := setKey st1.botRespawns hitId 2 }
      (st2, evH ++ [EventMsg.deathEv hitId id])
    else (st1, evH)
  else (st, [])

/-- The post-consumption portion of the continuous path (lines 1253-1336):
the Fire event with its rewind-based impact point, the snapshot proximity
candidate, the protection gate, the players-only occlusion gate and damage
application. -/
def contFireResolve (env : Env) (snap : List (Nat × Vec3 × Bool)) (id : Nat)
    (pos : Vec3) (inp : InputFrame) (st : SrvState) : SrvState × List EventMsg :=
  let forward := forwardFromYawPitch env.geom inp.yaw inp.pitch
  let origin := pos.add ⟨0, 7/10, 0⟩
  let range : ℚ := 100
  let tQuery := st.simTime - LAG_COMP_SEC
  let bestT := bestCylinderT env.geom st.hist tQuery origin forward range id
    st.bots (bestCylinderT env.geom st.hist tQuery origin forward range id
      st.players none)
  let hitOpt := bestT.map (fun t => origin.add (forward.smul t))
  let ev2 := [EventMsg.fireEv id origin forward hitOpt]
  match bestRayProx origin forward range id snap none with
  | none => (st, ev2)
  | some (hitId, tHit) =>
      if lookupD st.protect hitId (0 : ℚ) > 0 then (st, ev2)
      else if contOccludedChk env id hitId origin forward tHit st = true then (st, ev2)
      else
        match lookupA st.players hitId with
        | some hit =>
            let r := damageHumanCont id hitId hit st
            (r.1, ev2 ++ r.2)
        | none =>
            match lookupA st.bots hitId with
            | some hit =>
                let r := damageBotCont id hitId hit st
                (r.1, ev2 ++ r.2)
            | none => (st, ev2)

/-- Continuous-input fire processing for one shooter (lines 1231-1337):
gated on the fire flag, a fresh sequence number and the snapshot alive flag. -/
def contFireStep (env : Env) (snap : List (Nat × Vec3 × Bool)) (id : Nat)
    (pos : Vec3) (alive : Bool) (inp : InputFrame) (st0 : SrvState) :
    SrvState × List EventMsg :=
  let w := lookupD st0.weapons id weaponFull
  let lastSeq := lookupD st0.lastFire id 0
  let st := { st0 with weapons := setKey st0.weapons id w,
                       lastFire := setKey st0.lastFire id lastSeq }
  if inp.fire = true ∧ inp.seq ≠ lastSeq ∧ alive = true then
    let st := { st with lastFire := setKey st.lastFire id inp.seq }
    if w.reload > 0 ∨ w.cooldown > 0 then (st, [])
    else if lookupD st.protect id (0 : ℚ) > 0 then (st, [])
    else if w.ammo = 0 then
      let w' := if w.reload ≤ 0 then { w with reload := RELOAD_TIME } else w
      ({ st with weapons := setKey st.weapons id w' }, [EventMsg.ammoEv id w.ammo true])
    else
      let w' : WeaponStatus := { ammo := w.ammo - 1, cooldown := FIRE_COOLDOWN,
                                 reload := w.reload }
      let stF := { st with weapons := setKey st.weapons id w' }
      let r := contFireResolve env snap id pos inp stF
      (r.1, EventMsg.ammoEv id w'.ammo false :: r.2)
  else (st, [])

/-- Per-actor dispatch inside the fire loop (lines 1184-1230): actors with no
latest-input entry are skipped before the firemap entry is consumed; a
pending explicit request takes priority over the continuous flag. -/
def actorFireStep (env : Env) (snap : List (Nat × Vec3 × Bool)) (id : Nat)
    (pos : Vec3) (alive : Bool) (fm : List (Nat × Vec3 × Vec3)) (st : SrvState) :
    SrvState × List (Nat × Vec3 × Vec3) × List EventMsg :=
  match lookupA st.lastInputs id with
  | none => (st, fm, [])
  | some inp =>
      match lookupA fm id with
      | some od =>
          let r := explicitFireStep env id inp od.1 od.2 st
          (r.1, eraseKey fm id, r.2)
      | none =>
          let r := contFireStep env snap id pos alive inp st
          (r.1, fm, r.2)

/-- The fire loop over the frozen snapshot. -/
def firePass (env : Env) (snap0 : List (Nat × Vec3 × Bool)) :
    List (Nat × Vec3 × Bool) → List (Nat × Vec3 × Vec3) → SrvState →
    SrvState × List EventMsg
  | [], _, st => (st, [])
  | (id, pos, alive) :: rest, fm, st =>
      let r1 := actorFireStep env snap0 id pos alive fm st
      let r2 := firePass env snap0 rest r1.2.1 r1.1
      (r2.1, r1.2.2 ++ r2.2)

/-- Minimum distance from a candidate spawn point to any living player
(f32::INFINITY modelled as none). -/
def minDistToAlive (g : Geom) (players : List (Nat × ActorState)) (p : Vec3) :
    Option ℚ :=
  players.foldl
    (fun acc e =>
      if e.2.alive = true then
        let d := Vec3.lenG g (e.2.pos.sub p)
        match acc with
        | none => some d
        | some m => if d < m then some d else some m
      else acc)
    none

/-- Comparison mind > best_score with none standing for +infinity on the
left; the f32::MIN initial accumulator is a separate sentinel in the fold. -/
def optGT : Option ℚ → Option ℚ → Bool
  | none, none => false
  | none, some _ => true
  | some _, none => false
  | some a, some b => decide (b < a)

/-- choose_spawn_point (lines 1474-1498): maximize the minimum distance to
living players over the registered spawn points, with the environment-toggle
and empty-list fallbacks. -/
def choose_spawn_point (env : Env) (players : List (Nat × ActorState)) : Vec3 :=
  if env.useSpawnPoints = false then ⟨0, 10, 5⟩
  else
    match env.spawns with
    | [] => ⟨0, 10, 5⟩
    | s0 :: _ =>
        (env.spawns.foldl
          (fun (acc : Vec3 × Option (Option ℚ)) p =>
            let mind := minDistToAlive env.geom players p
            match acc.2 with
            | none => (p, some mind)
            | some best => if optGT mind best then (p, some mind) else acc)
          (s0, none)).1

/-- Respawn-countdown application (lines 1347-1371): the weapon refill is
unconditional for each expired timer, the state reset only for ids still in
the player map. -/
def respawnApply (env : Env) : List Nat → SrvState → SrvState × List EventMsg
  | [], st => (st, [])
  | pid :: rest, st =>
      let st1 := { st with respawns := eraseKey st.respawns pid }
      let spawn := choose_spawn_point env st1.players
      let r1 : SrvState × List EventMsg :=
        match lookupA st1.players pid with
        | some p =>
            let p' := { p with
                        alive := true, hp := 100, pos := spawn, vy := 0,
                        grounded := true }
            ({ st1 with players := setKey st1.players pid p',
                        protect := setKey st1.protect pid PROTECT_SEC },
             [EventMsg.spawnEv pid spawn ActorKind.human])
        | none => (st1, [])
      let st3 := { r1.1 with weapons := setKey r1.1.weapons pid weaponFull }
      let r2 := respawnApply env rest st3
      (r2.1, r1.2 ++ [EventMsg.ammoEv pid MAG_SIZE false] ++ r2.2)

/-- Respawn countdown (lines 1342-1371): decrement, collect expired, apply. -/
def respawnPass (env : Env) (st : SrvState) : SrvState × List EventMsg :=
  let decremented := st.respawns.map (fun e => (e.1, e.2 - env.dt))
  let toSpawn := (decremented.filter (fun e => e.2 ≤ 0)).map Prod.fst
  respawnApply env toSpawn { st with respawns := decremented }

/-- srv_shoot_and_respawn (lines 1136-1372): the whole combat system of one
tick.  The leading guard returns untouched state whenever the round phase is
not Active. -/
def srvShootTick (env : Env) (st : SrvState) : SrvState × List EventMsg :=
  if st.phase ≠ RoundPhase.active then (st, [])
  else
    let rW := tickWeapons env.dt st.weapons
    let st1 := { st with weapons := rW.1 }
    let snap := snapOf st1
    let fm := buildFiremap env.geom st1.fires
    let st2 := { st1 with fires := [] }
    let rF := firePass env snap snap fm st2
    let st4 := { rF.1 with protect := tickProtect env.dt rF.1.protect }
    let rR := respawnPass env st4
    (rR.1, rW.2 ++ rF.2 ++ rR.2)

-- ===== Bot firing (bot_ai_shoot_and_respawn, lines 1026-1109) =====

def Vec3.divS (a : Vec3) (s : ℚ) : Vec3 := ⟨a.x / s, a.y / s, a.z / s⟩

/-- Nearest living human in range, by exact distance (lines 1041-1052;
the FOV gate is removed in the source). -/
def botNearestTarget (g : Geom) (origin : Vec3) (range : ℚ) :
    List (Nat × ActorState) → Option (Nat × ℚ) → Option (Nat × ℚ)
  | [], best => best
  | (pid, p) :: rest, best =>
      let best' :=
        if p.alive = true then
          let toV := (p.pos.add ⟨0, 7/10, 0⟩).sub origin
          let dist := Vec3.lenG g toV
          if dist > range then best
          else
            match best with
            | none => some (pid, dist)
            | some (bid, bt) => if dist < bt then some (pid, dist) else some (bid, bt)
        else best
      botNearestTarget g origin range rest best'

/-- The bot-shot damage application (lines 1081-1100): fixed BOT_DMG damage,
death bookkeeping and the deaths increment; no kill credit and no weapon
write on this stage. -/
def botDamage (id hitId : Nat) (hitm : ActorState) (st : SrvState) :
    SrvState × List EventMsg :=
  if hitm.alive = true then
    let newHp := hitm.hp - BOT_DMG
    let stA := { st with
      players := setKey st.players hitId { hitm with hp := newHp } }
    let evH := [EventMsg.hitEv hitId newHp id]
    if newHp = 0 then
      ({ stA with
         players := setKey stA.players hitId
           { hitm with hp := newHp, alive := false },
         respawns := setKey stA.respawns hitId 2,
         scores := setKey stA.scores hitId
           ((lookupD stA.scores hitId (0, 0)).1,
            (lookupD stA.scores hitId (0, 0)).2 + 1) },
       evH ++ [EventMsg.deathEv hitId id])
    else (stA, evH)
  else (st, [])

/-- The bot shot from target selection onward (lines 1041-1108).  Faithful to
the source, including: no ammo use when the occlusion ray rejects the shot
after the Fire event, and the duplicated consumption/cooldown writes when
the shot reaches the damage stage (lines 1102-1104 and then 1106-1108). -/
def botShootResolve (env : Env) (id : Nat) (w : WeaponStatus) (origin : Vec3)
    (st : SrvState) : SrvState × List EventMsg :=
  match botNearestTarget env.geom origin BOT_FIRE_RANGE st.players none with
  | none => (st, [])
  | some (hitId, _tBest) =>
      match lookupA st.players hitId with
      | none => (st, [])
      | some tp =>
          let targetEye := tp.pos.add ⟨0, 7/10, 0⟩
          let toV := targetEye.sub origin
          let dist := max (Vec3.lenG env.geom toV) (1/1000)
          let aimDir := Vec3.normG env.geom (toV.divS dist)
          let focus0 := lookupD st.botFocus id (none, 0)
          let focus1 : Option Nat × ℚ :=
            if focus0.1 = some hitId then (focus0.1, focus0.2 + env.dt)
            else (some hitId, 0)
          let st := { st with botFocus := setKey st.botFocus id focus1 }
          if focus1.2 < BOT_REACT_SEC then (st, [])
          else if lookupD st.protect hitId (0 : ℚ) > 0 then (st, [])
          else
            let filter := lookupA env.ents id
            let hitOpt := (env.world origin aimDir dist filter).map
              (fun r => origin.add (aimDir.smul r.2))
            let ev1 := [EventMsg.fireEv id origin aimDir hitOpt]
            let occluded : Bool :=
              match env.world origin aimDir dist filter with
              | some (hitEnt, _) =>
                  if some hitEnt = lookupA env.ents hitId ∨
                     some hitEnt = lookupA env.botEnts hitId then false else true
              | none => false
            if occluded = true then (st, ev1)
            else
              match lookupA st.players hitId with
              | some hitm =>
                  let r1 := botDamage id hitId hitm st
                  -- first consumption (line 1103-1104)
                  let w1 : WeaponStatus :=
                    { ammo := w.ammo - 1, cooldown := FIRE_COOLDOWN,
                      reload := w.reload }
                  -- second consumption (line 1107-1108)
                  let w2 : WeaponStatus :=
                    { ammo := w1.ammo - 1, cooldown := BOT_FIRE_COOLDOWN,
                      reload := w1.reload }
                  ({ r1.1 with weapons := setKey r1.1.weapons id w2 },
                   ev1 ++ r1.2)
              | none =>
                  let w2 : WeaponStatus :=
                    { ammo := w.ammo - 1, cooldown := BOT_FIRE_COOLDOWN,
                      reload := w.reload }
                  ({ st with weapons := setKey st.weapons id w2 }, ev1)

/-- One bot's firing decision for a tick (the body of the shooting loop of
bot_ai_shoot_and_respawn): the early gates of lines 1026-1040, then the
resolution stage. -/
def botShootStep (env : Env) (id : Nat) (b : ActorState) (st0 : SrvState) :
    SrvState × List EventMsg :=
  if b.alive = false then (st0, [])
  else if (lookupA st0.botFSM id).map Prod.fst ≠ some BotFsm.combat then (st0, [])
  else
    let w := lookupD st0.weapons id weaponFull
    let st := { st0 with weapons := setKey st0.weapons id w }
    if w.reload > 0 ∨ w.cooldown > 0 then (st, [])
    else if lookupD st.protect id (0 : ℚ) > 0 then (st, [])
    else if w.ammo = 0 then
      ({ st with weapons := setKey st.weapons id { w with reload := RELOAD_TIME } },
       [])
    else
      let origin := b.pos.add ⟨0, 7/10, 0⟩
      -- (the yaw-derived forward vector of line 1039 is dead after the FOV
      --  gate was removed and does not influence the result)
      botShootResolve env id w origin st

-- ===== Round state machine (round_update, lines 1500-1571) =====

def findWinner : List (Nat × Nat × Nat) → Option Nat
  | [] => none
  | (id, k, _d) :: rest => if k ≥ WIN_KILLS then some id else findWinner rest

/-- The Ending→Active respawn sweep over the player ids: each player is
reset to a spawn point with full health; choose_spawn_point is re-evaluated
against the partially updated map, exactly as the source loop does. -/
def roundRespawnAll (env : Env) :
    List Nat → List (Nat × ActorState) → List (Nat × Nat) →
    List (Nat × ActorState) × List (Nat × Nat) × List EventMsg
  | [], players, jumps => (players, jumps, [])
  | id :: rest, players, jumps =>
      let spawn := choose_spawn_point env players
      match lookupA players id with
      | some p =>
          let p' := { p with
                      alive := true, hp := 100, pos := spawn, vy := 0,
                      grounded := true }
          let players1 := setKey players id p'
          let jumps1 :=
            match lookupA jumps id with
            | some _ => setKey jumps id 0
            | none => jumps
          let r := roundRespawnAll env rest players1 jumps1
          (r.1, r.2.1, EventMsg.spawnEv id spawn ActorKind.human :: r.2.2)
      | none =>
          let r := roundRespawnAll env rest players jumps
          (r.1, r.2.1, r.2.2)

/-- round_update: Active counts the clock down and ends on a win or timeout;
Ending counts the end delay down and then resets players, scores and the
clock.  The Weapons resource is not among the system's parameters: weapon
state is untouched by the transition. -/
def round_update (env : Env) (st : SrvState) : SrvState × List EventMsg :=
  match st.phase with
  | RoundPhase.active =>
      let timeLeft := st.timeLeft - env.dt
      let winner := findWinner st.scores
      if winner.isSome ∨ timeLeft ≤ 0 then
        ({ st with timeLeft := timeLeft, phase := RoundPhase.ending,
                   endTimer := ROUND_END_DELAY_SEC },
         [EventMsg.roundEndEv winner ROUND_END_DELAY_SEC])
      else ({ st with timeLeft := timeLeft }, [])
  | RoundPhase.ending =>
      let endTimer := st.endTimer - env.dt
      if endTimer ≤ 0 then
        let r := roundRespawnAll env (st.players.map Prod.fst) st.players st.jumps
        ({ st with players := r.1, jumps := r.2.1,
                   respawns := [],
                   scores := st.scores.map (fun e => (e.1, (0, 0))),
                   phase := RoundPhase.active,
                   timeLeft := ROUND_TIME_SEC,
                   endTimer := endTimer },
         r.2.2 ++ [EventMsg.roundStartEv ROUND_TIME_SEC])
      else ({ st with endTimer := endTimer }, [])

-- ===== Scaffold lifecycle (process_scaffold_requests, lines 775-856) =====

structure ScaffoldState where
  byId : List (Nat × Nat × Vec3 × ℚ)
  perOwner : List (Nat × List Nat)
deriving DecidableEq

/-- The owner-overlap minimal push-out of the requested position
(lines 797-822). -/
def scaffoldAdjustPlace (g : Geom) (ply place : Vec3) : Vec3 :=
  let playerRadius : ℚ := 3/10
  let halfExtent : ℚ := 1
  let margin : ℚ := 6/100
  let minDist := playerRadius + halfExtent + margin
  let dx := place.x - ply.x
  let dz := place.z - ply.z
  let d2 := dx * dx + dz * dz
  if d2 < minDist * minDist then
    let len := g.sqrtF (dx * dx + dz * dz)
    let nx := if len < 1/100000 then (1 : ℚ) else dx / len
    let nz := if len < 1/100000 then (0 : ℚ) else dz / len
    let push := minDist - min len minDist
    ⟨ply.x + nx * (len + push), place.y, ply.z + nz * (len + push)⟩
  else place

inductive ScaffoldOutcome where
  | retry
  | placed (sc : ScaffoldState) (evicted : Option Nat) (events : List EventMsg)
deriving DecidableEq

/-- One placement request (the body of the request loop, lines 791-855):
requests whose owner is not yet registered are re-queued; otherwise the
position is adjusted, the oldest scaffold of a full owner is evicted
(vec.remove(0)), and the new scaffold is appended and registered. -/
def process_scaffold_request (env : Env) (players : List (Nat × ActorState))
    (owner : Nat) (placeIn : Vec3) (sid : Nat) (sc : ScaffoldState) :
    ScaffoldOutcome :=
  match lookupA players owner, lookupA env.ents owner with
  | some pst, some _ =>
      let place := scaffoldAdjustPlace env.geom pst.pos placeIn
      let cur := lookupD sc.perOwner owner []
      let toRemove : Option Nat :=
        if cur.length ≥ SCAFFOLD_PER_PLAYER_LIMIT then some (cur.headD 0) else none
      let curAfter :=
        if cur.length ≥ SCAFFOLD_PER_PLAYER_LIMIT then cur.tail else cur
      let sc1 : ScaffoldState := { sc with perOwner := setKey sc.perOwner owner curAfter }
      let sc2 : ScaffoldState :=
        match toRemove with
        | some old => { sc1 with byId := eraseKey sc1.byId old }
        | none => sc1
      let evs1 :=
        match toRemove with
        | some old => [EventMsg.scaffoldDespawnEv old]
        | none => []
      let sc3 : ScaffoldState := { sc2 with
        perOwner := setKey sc2.perOwner owner
          (lookupD sc2.perOwner owner [] ++ [sid]),
        byId := setKey sc2.byId sid (owner, place, SCAFFOLD_LIFETIME) }
      ScaffoldOutcome.placed sc3 toRemove (evs1 ++ [EventMsg.scaffoldSpawnEv sid owner place])
  | _, _ => ScaffoldOutcome.retry

-- ===== Shared helper lemmas =====

theorem lookupA_mem {α : Type} (l : List (Nat × α)) (k : Nat) (v : α)
    (h : lookupA l k = some v) : (k, v) ∈ l := by
  induction l with
  | nil => simp [lookupA] at h
  | cons hd tl ih =>
      obtain ⟨k', v'⟩ := hd
      by_cases hk : k' = k
      · subst hk
        simp [lookupA] at h
        simp [h]
      · simp [lookupA, hk] at h
        exact List.mem_cons_of_mem _ (ih h)

/-- The stored per-owner list is bounded whenever the map invariant holds. -/
theorem lookupD_length_le (l : List (Nat × List Nat)) (k : Nat) (n : Nat)
    (hInv : ∀ e ∈ l, e.2.length ≤ n) : (lookupD l k []).length ≤ n := by
  cases h : lookupA l k with
  | none => simp [lookupD, h]
  | some v =>
      have := hInv (k, v) (lookupA_mem l k v h)
      simpa [lookupD, h] using this

-- ===== Claim theorems =====

/-- Claim C9: a placement request for a registered owner always succeeds; if
the owner already holds the per-owner limit exactly the oldest scaffold
(FIFO head) is despawned before the new one is appended, otherwise nothing
is removed; other owners' lists are untouched, and the per-owner bound is
preserved. -/
theorem scaffold_limit_fifo (env : Env) (players : List (Nat × ActorState))
    (owner : Nat) (placeIn : Vec3) (sid : Nat) (sc : ScaffoldState)
    (pst : ActorState) (ent : Nat)
    (hInv : ∀ e ∈ sc.perOwner, e.2.length ≤ SCAFFOLD_PER_PLAYER_LIMIT)
    (hOwn : lookupA players owner = some pst)
    (hEnt : lookupA env.ents owner = some ent) :
    ∃ sc',
      process_scaffold_request env players owner placeIn sid sc =
        ScaffoldOutcome.placed sc'
          (if (lookupD sc.perOwner owner []).length ≥ SCAFFOLD_PER_PLAYER_LIMIT
           then some ((lookupD sc.perOwner owner []).headD 0) else none)
          ((if (lookupD sc.perOwner owner []).length ≥ SCAFFOLD_PER_PLAYER_LIMIT
            then [EventMsg.scaffoldDespawnEv ((lookupD sc.perOwner owner []).headD 0)]
            else []) ++
           [EventMsg.scaffoldSpawnEv sid owner
             (scaffoldAdjustPlace env.geom pst.pos placeIn)]) ∧
      (∀ e ∈ sc'.perOwner, e.2.length ≤ SCAFFOLD_PER_PLAYER_LIMIT) ∧
      lookupA sc'.perOwner owner =
        some ((if (lookupD sc.perOwner owner []).length ≥ SCAFFOLD_PER_PLAYER_LIMIT
               then (lookupD sc.perOwner owner []).tail
               else lookupD sc.perOwner owner []) ++ [sid]) ∧
      (∀ o, o ≠ owner → lookupA sc'.perOwner o = lookupA sc.perOwner o) ∧
      sc'.byId =
        setKey (if (lookupD sc.perOwner owner []).length ≥ SCAFFOLD_PER_PLAYER_LIMIT
                then eraseKey sc.byId ((lookupD sc.perOwner owner []).headD 0)
                else sc.byId) sid
          (owner, scaffoldAdjustPlace env.geom pst.pos placeIn, SCAFFOLD_LIFETIME) := by
  have hcurle : (lookupD sc.perOwner owner []).length ≤ SCAFFOLD_PER_PLAYER_LIMIT :=
    lookupD_length_le sc.perOwner owner _ hInv
  by_cases hlen : (lookupD sc.perOwner owner []).length ≥ SCAFFOLD_PER_PLAYER_LIMIT
  · -- eviction branch
    refine ⟨{ byId := setKey (eraseKey sc.byId ((lookupD sc.perOwner owner []).headD 0))
                sid (owner, scaffoldAdjustPlace env.geom pst.pos placeIn, SCAFFOLD_LIFETIME),
              perOwner := setKey (setKey sc.perOwner owner (lookupD sc.perOwner owner []).tail)
                owner ((lookupD sc.perOwner owner []).tail ++ [sid]) }, ?_, ?_, ?_, ?_, ?_⟩
    · simp only [process_scaffold_request, hOwn, hEnt, if_pos hlen]
      simp [lookupD, lookupA_setKey_self]
    · intro e he
      rcases mem_setKey _ _ _ e he with h1 | h1
      · have hne : (lookupD sc.perOwner owner []) ≠ [] := by
          intro hc
          rw [hc] at hlen
          simp [SCAFFOLD_PER_PLAYER_LIMIT] at hlen
        have hL : SCAFFOLD_PER_PLAYER_LIMIT = 3 := rfl
        have : ((lookupD sc.perOwner owner []).tail ++ [sid]).length =
            (lookupD sc.perOwner owner []).length := by
          rw [List.length_append, List.length_tail]
          simp only [List.length_singleton]
          omega
        rw [h1]
        simpa [this] using hcurle
      · rcases mem_setKey _ _ _ e h1 with h2 | h2
        · rw [h2]
          calc (lookupD sc.perOwner owner []).tail.length
              ≤ (lookupD sc.perOwner owner []).length := by
                simp [List.length_tail]
            _ ≤ SCAFFOLD_PER_PLAYER_LIMIT := hcurle
        · exact hInv e h2
    · simp [lookupA_setKey_self, hlen]
    · intro o ho
      rw [lookupA_setKey_ne _ _ _ _ ho, lookupA_setKey_ne _ _ _ _ ho]
    · simp only [if_pos hlen]
  · -- no eviction
    refine ⟨{ byId := setKey sc.byId sid
                (owner, scaffoldAdjustPlace env.geom pst.pos placeIn, SCAFFOLD_LIFETIME),
              perOwner := setKey (setKey sc.perOwner owner (lookupD sc.perOwner owner []))
                owner ((lookupD sc.perOwner owner []) ++ [sid]) }, ?_, ?_, ?_, ?_, ?_⟩
    · simp only [process_scaffold_request, hOwn, hEnt, if_neg hlen]
      simp [lookupD, lookupA_setKey_self]
    · intro e he
      rcases mem_setKey _ _ _ e he with h1 | h1
      · have hlt : (lookupD sc.perOwner owner []).length < SCAFFOLD_PER_PLAYER_LIMIT := by
          omega
        rw [h1]
        simpa using hlt
      · rcases mem_setKey _ _ _ e h1 with h2 | h2
        · rw [h2]
          simpa using hcurle
        · exact hInv e h2
    · simp [lookupA_setKey_self, if_neg hlen]
    · intro o ho
      rw [lookupA_setKey_ne _ _ _ _ ho, lookupA_setKey_ne _ _ _ _ ho]
    · simp only [if_neg hlen]

-- ===== Concrete fixtures used by witnesses and counterexamples =====

/-- A degenerate instantiation of the f32 primitives (never consulted on the
paths the concrete scenarios exercise, except where noted). -/
def geomZero : Geom := ⟨fun _ => 0, fun _ => 0, fun _ => 0⟩

/-- A physics world with no geometry: every ray misses. -/
def worldNone : World := fun _ _ _ _ => none

/-- A standing actor at a given position, full health. -/
def actorAt (p : Vec3) : ActorState := ⟨p, 0, 100, true, 0, true⟩

def actorW : ActorState := actorAt ⟨0, 0, 0⟩

def envS : Env :=
  { geom := geomZero, world := worldNone, ents := [(1, 10)], botEnts := [],
    spawns := [], useSpawnPoints := true, dt := 1/60 }

def scW : ScaffoldState :=
  { byId := [(100, (1, ⟨0, 0, 0⟩, 5)), (101, (1, ⟨1, 0, 0⟩, 5)),
             (102, (1, ⟨2, 0, 0⟩, 5))],
    perOwner := [(1, [100, 101, 102])] }

/-- Witness for scaffold_limit_fifo: an owner at the limit of three placing a
fourth scaffold. -/
theorem scaffold_limit_fifo_witness :
    ∃ sc', process_scaffold_request envS [(1, actorW)] 1 ⟨50, 0, 0⟩ 103 scW =
      ScaffoldOutcome.placed sc'
        (if (lookupD scW.perOwner 1 []).length ≥ SCAFFOLD_PER_PLAYER_LIMIT
         then some ((lookupD scW.perOwner 1 []).headD 0) else none)
        ((if (lookupD scW.perOwner 1 []).length ≥ SCAFFOLD_PER_PLAYER_LIMIT
          then [EventMsg.scaffoldDespawnEv ((lookupD scW.perOwner 1 []).headD 0)]
          else []) ++
         [EventMsg.scaffoldSpawnEv 103 1
           (scaffoldAdjustPlace envS.geom actorW.pos ⟨50, 0, 0⟩)]) := by
  obtain ⟨sc', h1, -, -, -, -⟩ :=
    scaffold_limit_fifo envS [(1, actorW)] 1 ⟨50, 0, 0⟩ 103 scW actorW 10
      (by decide) (by decide) (by decide)
  exact ⟨sc', h1⟩

-- ===== Continuous-fire branch lemmas =====

/-- When the dedup/alive guard fails the continuous path only performs the
entry(..).or_insert normalization writes and emits nothing. -/
theorem contFireStep_of_not_guard (env : Env) (snap : List (Nat × Vec3 × Bool))
    (id : Nat) (pos : Vec3) (alive : Bool) (inp : InputFrame) (st : SrvState)
    (h : ¬ (inp.fire = true ∧ inp.seq ≠ lookupD st.lastFire id 0 ∧ alive = true)) :
    contFireStep env snap id pos alive inp st =
      ({ st with weapons := setKey st.weapons id (lookupD st.weapons id weaponFull),
                 lastFire := setKey st.lastFire id (lookupD st.lastFire id 0) }, []) := by
  simp only [contFireStep, if_neg h]

/-- Frame facts of continuous-path human damage: the last-fire map is never
touched; the weapons map is touched only by the kill auto-reload, at the
shooter's own key. -/
theorem damageHumanCont_frame (id hitId : Nat) (hit : ActorState) (st : SrvState) :
    (damageHumanCont id hitId hit st).1.lastFire = st.lastFire ∧
    ((damageHumanCont id hitId hit st).1.weapons = st.weapons ∨
     ∃ v, (damageHumanCont id hitId hit st).1.weapons = setKey st.weapons id v) := by
  simp only [damageHumanCont]
  refine ⟨?_, ?_⟩ <;>
    (split
     all_goals try split
     all_goals try split
     all_goals first | rfl | exact Or.inl rfl | exact Or.inr ⟨_, rfl⟩)

/-- Frame facts of continuous-path bot damage: neither the last-fire map nor
the weapons map is touched. -/
theorem damageBotCont_frame (id hitId : Nat) (hit : ActorState) (st : SrvState) :
    (damageBotCont id hitId hit st).1.lastFire = st.lastFire ∧
    (damageBotCont id hitId hit st).1.weapons = st.weapons := by
  simp only [damageBotCont]
  refine ⟨?_, ?_⟩ <;>
    (split
     all_goals try split
     all_goals rfl)

/-- Frame facts of the continuous hit-resolution stage: it never touches the
last-fire map, and the weapons map is either untouched or rewritten at the
shooter's own key (the kill auto-reload of line 1311). -/
theorem contFireResolve_frame (env : Env) (snap : List (Nat × Vec3 × Bool))
    (id : Nat) (pos : Vec3) (inp : InputFrame) (st : SrvState) :
    (contFireResolve env snap id pos inp st).1.lastFire = st.lastFire ∧
    ((contFireResolve env snap id pos inp st).1.weapons = st.weapons ∨
     ∃ v, (contFireResolve env snap id pos inp st).1.weapons =
        setKey st.weapons id v) := by
  simp only [contFireResolve]
  refine ⟨?_, ?_⟩ <;>
    (split
     all_goals try split
     all_goals try split
     all_goals try split
     all_goals try split
     all_goals first
       | rfl
       | exact Or.inl rfl
       | exact (damageHumanCont_frame _ _ _ _).1
       | exact (damageBotCont_frame _ _ _ _).1
       | exact (damageHumanCont_frame _ _ _ _).2
       | exact Or.inl (damageBotCont_frame _ _ _ _).2)

/-- When the guard holds, the continuous path records the new sequence number
and always leaves a weapon entry for the shooter. -/
theorem contFireStep_of_guard (env : Env) (snap : List (Nat × Vec3 × Bool))
    (id : Nat) (pos : Vec3) (alive : Bool) (inp : InputFrame) (st : SrvState)
    (h : inp.fire = true ∧ inp.seq ≠ lookupD st.lastFire id 0 ∧ alive = true) :
    lookupA (contFireStep env snap id pos alive inp st).1.lastFire id = some inp.seq ∧
    ∃ wv, lookupA (contFireStep env snap id pos alive inp st).1.weapons id = some wv := by
  simp only [contFireStep, if_pos h]
  constructor
  · split
    · simp [lookupA_setKey_self]
    · split
      · simp [lookupA_setKey_self]
      · split
        · simp [lookupA_setKey_self]
        · rw [(contFireResolve_frame env snap id pos inp _).1]
          simp [lookupA_setKey_self]
  · split
    · simp [lookupA_setKey_self]
    · split
      · simp [lookupA_setKey_self]
      · split
        · simp [lookupA_setKey_self]
        · rcases (contFireResolve_frame env snap id pos inp _).2 with hh | ⟨v, hh⟩ <;>
            rw [hh] <;> simp [lookupA_setKey_self]

/-- Claim C4: continuous-input fire deduplication by last-processed sequence:
handling a sequence number equal to the stored one changes no weapon state
and emits no event, and handling the same frame twice leaves the weapon and
sequence state identical to handling it once. -/
theorem cont_fire_same_seq_idempotent (env : Env) (snap : List (Nat × Vec3 × Bool))
    (id : Nat) (pos : Vec3) (alive : Bool) (inp : InputFrame) (st : SrvState) :
    (inp.seq = lookupD st.lastFire id 0 →
       lookupD (contFireStep env snap id pos alive inp st).1.weapons id weaponFull =
         lookupD st.weapons id weaponFull ∧
       (contFireStep env snap id pos alive inp st).2 = []) ∧
    lookupD (contFireStep env snap id pos alive inp
        (contFireStep env snap id pos alive inp st).1).1.weapons id weaponFull =
      lookupD (contFireStep env snap id pos alive inp st).1.weapons id weaponFull ∧
    lookupD (contFireStep env snap id pos alive inp
        (contFireStep env snap id pos alive inp st).1).1.lastFire id 0 =
      lookupD (contFireStep env snap id pos alive inp st).1.lastFire id 0 := by
  constructor
  · intro hseq
    have hng : ¬ (inp.fire = true ∧ inp.seq ≠ lookupD st.lastFire id 0 ∧ alive = true) := by
      intro hc
      exact hc.2.1 hseq
    rw [contFireStep_of_not_guard env snap id pos alive inp st hng]
    simp [lookupD, lookupA_setKey_self]
  · by_cases hg : inp.fire = true ∧ inp.seq ≠ lookupD st.lastFire id 0 ∧ alive = true
    · obtain ⟨hlf, wv, hw⟩ := contFireStep_of_guard env snap id pos alive inp st hg
      have hng2 : ¬ (inp.fire = true ∧
          inp.seq ≠ lookupD (contFireStep env snap id pos alive inp st).1.lastFire id 0 ∧
          alive = true) := by
        intro hc
        exact hc.2.1 (by simp [lookupD, hlf])
      rw [contFireStep_of_not_guard env snap id pos alive inp _ hng2]
      constructor
      · simp [lookupD, lookupA_setKey_self]
      · simp [lookupD, lookupA_setKey_self]
    · have h1 := contFireStep_of_not_guard env snap id pos alive inp st hg
      have hng2 : ¬ (inp.fire = true ∧
          inp.seq ≠ lookupD (contFireStep env snap id pos alive inp st).1.lastFire id 0 ∧
          alive = true) := by
        intro hc
        apply hg
        refine ⟨hc.1, ?_, hc.2.2⟩
        have hsame : lookupD (contFireStep env snap id pos alive inp st).1.lastFire id 0 =
            lookupD st.lastFire id 0 := by
          rw [h1]
          simp [lookupD, lookupA_setKey_self]
        rw [← hsame]
        exact hc.2.1
      rw [contFireStep_of_not_guard env snap id pos alive inp _ hng2]
      constructor
      · simp [lookupD, lookupA_setKey_self]
      · simp [lookupD, lookupA_setKey_self]

/-- A full input frame used by concrete scenarios. -/
def inpW : InputFrame :=
  { seq := 5, mvx := 0, mvz := 0, run := false, jump := false, fire := true,
    yaw := 0, pitch := 0 }

/-- A quiet one-player server state whose last processed fire sequence is
already 5. -/
def stIdle : SrvState :=
  { players := [(1, actorW)], bots := [], weapons := [(1, weaponFull)],
    lastFire := [(1, 5)], protect := [], respawns := [], botRespawns := [],
    scores := [(1, (0, 0))], hist := [], simTime := 1, fires := [],
    lastInputs := [(1, inpW)], phase := RoundPhase.active, timeLeft := 300,
    endTimer := 0, jumps := [], botFSM := [], botFocus := [] }

/-- Witness for cont_fire_same_seq_idempotent: re-sending sequence 5 when 5
is already the last processed sequence neither consumes ammo nor emits
events. -/
theorem cont_fire_same_seq_idempotent_witness :
    lookupD (contFireStep envS [] 1 ⟨0, 0, 0⟩ true inpW stIdle).1.weapons 1
        weaponFull = lookupD stIdle.weapons 1 weaponFull ∧
    (contFireStep envS [] 1 ⟨0, 0, 0⟩ true inpW stIdle).2 = [] :=
  (cont_fire_same_seq_idempotent envS [] 1 ⟨0, 0, 0⟩ true inpW stIdle).1 (by decide)

-- ===== Fire-pass frame machinery (claim C10) =====

/-- The shooter id carried by a Fire event, if the event is one. -/
def fireEvShooter : EventMsg → Option Nat
  | EventMsg.fireEv id _ _ _ => some id
  | _ => none

/-- The state fields no branch of the per-actor fire processing writes. -/
def miscEq (s t : SrvState) : Prop :=
  s.hist = t.hist ∧ s.simTime = t.simTime ∧ s.fires = t.fires ∧
  s.lastInputs = t.lastInputs ∧ s.phase = t.phase ∧ s.timeLeft = t.timeLeft ∧
  s.endTimer = t.endTimer ∧ s.jumps = t.jumps ∧ s.botFSM = t.botFSM

theorem miscEq_refl (s : SrvState) : miscEq s s :=
  ⟨rfl, rfl, rfl, rfl, rfl, rfl, rfl, rfl, rfl⟩

theorem miscEq_trans {a b c : SrvState} (h1 : miscEq a b) (h2 : miscEq b c) :
    miscEq a c := by
  obtain ⟨x1, x2, x3, x4, x5, x6, x7, x8, x9⟩ := h1
  obtain ⟨y1, y2, y3, y4, y5, y6, y7, y8, y9⟩ := h2
  exact ⟨x1.trans y1, x2.trans y2, x3.trans y3, x4.trans y4, x5.trans y5,
    x6.trans y6, x7.trans y7, x8.trans y8, x9.trans y9⟩

theorem damageHumanCont_aux (id hitId : Nat) (hit : ActorState) (st : SrvState) :
    miscEq (damageHumanCont id hitId hit st).1 st ∧
    ∀ e ∈ (damageHumanCont id hitId hit st).2, fireEvShooter e = none := by
  simp only [damageHumanCont]
  refine ⟨?_, ?_⟩ <;>
    (split
     all_goals try split
     all_goals try split
     all_goals first
       | exact miscEq_refl _
       | simp [fireEvShooter])

theorem damageBotCont_aux (id hitId : Nat) (hit : ActorState) (st : SrvState) :
    miscEq (damageBotCont id hitId hit st).1 st ∧
    ∀ e ∈ (damageBotCont id hitId hit st).2, fireEvShooter e = none := by
  simp only [damageBotCont]
  refine ⟨?_, ?_⟩ <;>
    (split
     all_goals try split
     all_goals first
       | exact miscEq_refl _
       | simp [fireEvShooter])

theorem damageHumanExp_aux (id hitId : Nat) (hit : ActorState) (st : SrvState) :
    miscEq (damageHumanExp id hitId hit st).1 st ∧
    (damageHumanExp id hitId hit st).1.weapons = st.weapons ∧
    (damageHumanExp id hitId hit st).1.lastFire = st.lastFire ∧
    ∀ e ∈ (damageHumanExp id hitId hit st).2, fireEvShooter e = none := by
  simp only [damageHumanExp]
  refine ⟨?_, ?_, ?_, ?_⟩ <;>
    (split
     all_goals try split
     all_goals first
       | exact miscEq_refl _
       | rfl
       | simp [fireEvShooter])

theorem damageBotExp_aux (id hitId : Nat) (hit : ActorState) (st : SrvState) :
    miscEq (damageBotExp id hitId hit st).1 st ∧
    (damageBotExp id hitId hit st).1.weapons = st.weapons ∧
    (damageBotExp id hitId hit st).1.lastFire = st.lastFire ∧
    ∀ e ∈ (damageBotExp id hitId hit st).2, fireEvShooter e = none := by
  simp only [damageBotExp]
  refine ⟨?_, ?_, ?_, ?_⟩ <;>
    (split
     all_goals try split
     all_goals first
       | exact miscEq_refl _
       | rfl
       | simp [fireEvShooter])

theorem contFireResolve_aux (env : Env) (snap : List (Nat × Vec3 × Bool))
    (id : Nat) (pos : Vec3) (inp : InputFrame) (st : SrvState) :
    miscEq (contFireResolve env snap id pos inp st).1 st ∧
    ∀ e ∈ (contFireResolve env snap id pos inp st).2,
      fireEvShooter e = none ∨ fireEvShooter e = some id := by
  simp only [contFireResolve]
  refine ⟨?_, ?_⟩ <;>
    (split
     all_goals try split
     all_goals try split
     all_goals try split
     all_goals try split
     all_goals first
       | exact miscEq_refl _
       | exact (damageHumanCont_aux _ _ _ _).1
       | exact (damageBotCont_aux _ _ _ _).1
       | (intro e he
          simp [fireEvShooter] at he ⊢
          rcases he with he | he
          · simp [he, fireEvShooter]
          · first
            | exact Or.inl ((damageHumanCont_aux _ _ _ _).2 e he)
            | exact Or.inl ((damageBotCont_aux _ _ _ _).2 e he))
       | (intro e he
          simp at he
          simp [he, fireEvShooter]))

theorem explicitFireResolve_aux (env : Env) (id : Nat) (origin forward : Vec3)
    (st : SrvState) :
    miscEq (explicitFireResolve env id origin forward st).1 st ∧
    (explicitFireResolve env id origin forward st).1.weapons = st.weapons ∧
    (explicitFireResolve env id origin forward st).1.lastFire = st.lastFire ∧
    ∀ e ∈ (explicitFireResolve env id origin forward st).2,
      fireEvShooter e = none ∨ fireEvShooter e = some id := by
  simp only [explicitFireResolve]
  refine ⟨?_, ?_, ?_, ?_⟩ <;>
    (split
     all_goals try split
     all_goals try split
     all_goals try split
     all_goals first
       | exact miscEq_refl _
       | exact (damageHumanExp_aux _ _ _ _).1
       | exact (damageBotExp_aux _ _ _ _).1
       | rfl
       | exact (damageHumanExp_aux _ _ _ _).2.1
       | exact (damageBotExp_aux _ _ _ _).2.1
       | exact (damageHumanExp_aux _ _ _ _).2.2.1
       | exact (damageBotExp_aux _ _ _ _).2.2.1
       | (intro e he
          simp [fireEvShooter] at he ⊢
          rcases he with he | he
          · simp [he, fireEvShooter]
          · first
            | exact Or.inl ((damageHumanExp_aux _ _ _ _).2.2.2 e he)
            | exact Or.inl ((damageBotExp_aux _ _ _ _).2.2.2 e he))
       | (intro e he
          simp at he
          simp [he, fireEvShooter]))

theorem contFireResolve_weapons_other (env : Env) (snap : List (Nat × Vec3 × Bool))
    (id : Nat) (pos : Vec3) (inp : InputFrame) (st : SrvState) (a : Nat)
    (hne : a ≠ id) :
    lookupA (contFireResolve env snap id pos inp st).1.weapons a =
      lookupA st.weapons a := by
  rcases (contFireResolve_frame env snap id pos inp st).2 with hh | ⟨v, hh⟩ <;> rw [hh]
  rw [lookupA_setKey_ne _ _ _ _ hne]

theorem contFireStep_aux (env : Env) (snap : List (Nat × Vec3 × Bool)) (id : Nat)
    (pos : Vec3) (alive : Bool) (inp : InputFrame) (st : SrvState) (a : Nat)
    (hne : a ≠ id) :
    lookupA (contFireStep env snap id pos alive inp st).1.weapons a =
      lookupA st.weapons a ∧
    miscEq (contFireStep env snap id pos alive inp st).1 st ∧
    ∀ e ∈ (contFireStep env snap id pos alive inp st).2,
      fireEvShooter e = none ∨ fireEvShooter e = some id := by
  simp only [contFireStep]
  refine ⟨?_, ?_, ?_⟩ <;>
    (split
     all_goals try split
     all_goals try split
     all_goals try split
     all_goals first
       | exact ⟨rfl, rfl, rfl, rfl, rfl, rfl, rfl, rfl, rfl⟩
       | exact miscEq_trans (contFireResolve_aux env snap id pos inp _).1
           ⟨rfl, rfl, rfl, rfl, rfl, rfl, rfl, rfl, rfl⟩
       | (simp [lookupA_setKey_ne _ _ _ _ hne]; done)
       | (rw [contFireResolve_weapons_other env snap id pos inp _ a hne]
          simp [lookupA_setKey_ne _ _ _ _ hne])
       | (intro e he
          simp [fireEvShooter] at he ⊢
          rcases he with he | he
          · simp [he, fireEvShooter]
          · exact (contFireResolve_aux env snap id pos inp _).2 e he)
       | (intro e he
          simp at he
          simp [he, fireEvShooter]))

theorem explicitFireStep_aux (env : Env) (id : Nat) (inp : InputFrame)
    (origin forward : Vec3) (st : SrvState) (a : Nat) (hne : a ≠ id) :
    lookupA (explicitFireStep env id inp origin forward st).1.weapons a =
      lookupA st.weapons a ∧
    miscEq (explicitFireStep env id inp origin forward st).1 st ∧
    ∀ e ∈ (explicitFireStep env id inp origin forward st).2,
      fireEvShooter e = none ∨ fireEvShooter e = some id := by
  simp only [explicitFireStep]
  refine ⟨?_, ?_, ?_⟩ <;>
    (split
     all_goals try split
     all_goals first
       | exact ⟨rfl, rfl, rfl, rfl, rfl, rfl, rfl, rfl, rfl⟩
       | exact miscEq_trans (explicitFireResolve_aux env id origin forward _).1
           ⟨rfl, rfl, rfl, rfl, rfl, rfl, rfl, rfl, rfl⟩
       | (simp [lookupA_setKey_ne _ _ _ _ hne]; done)
       | (rw [(explicitFireResolve_aux env id origin forward _).2.1]
          simp [lookupA_setKey_ne _ _ _ _ hne])
       | (intro e he
          simp [fireEvShooter] at he ⊢
          rcases he with he | he
          · simp [he, fireEvShooter]
          · exact (explicitFireResolve_aux env id origin forward _).2.2.2 e he)
       | (intro e he
          simp at he
          simp [he, fireEvShooter]))

/-- Actors with no latest-input entry are skipped outright: the queued
explicit request is not consumed and nothing changes (line 1185). -/
theorem actorFireStep_skip (env : Env) (snap : List (Nat × Vec3 × Bool))
    (id : Nat) (pos : Vec3) (alive : Bool) (fm : List (Nat × Vec3 × Vec3))
    (st : SrvState) (h : lookupA st.lastInputs id = none) :
    actorFireStep env snap id pos alive fm st = (st, fm, []) := by
  simp only [actorFireStep, h]

theorem actorFireStep_aux (env : Env) (snap : List (Nat × Vec3 × Bool))
    (id : Nat) (pos : Vec3) (alive : Bool) (fm : List (Nat × Vec3 × Vec3))
    (st : SrvState) (a : Nat) (hne : a ≠ id) :
    lookupA (actorFireStep env snap id pos alive fm st).1.weapons a =
      lookupA st.weapons a ∧
    miscEq (actorFireStep env snap id pos alive fm st).1 st ∧
    ∀ e ∈ (actorFireStep env snap id pos alive fm st).2.2,
      fireEvShooter e = none ∨ fireEvShooter e = some id := by
  simp only [actorFireStep]
  split
  · exact ⟨rfl, miscEq_refl _, by simp⟩
  · split
    · exact ⟨(explicitFireStep_aux env id _ _ _ st a hne).1,
        (explicitFireStep_aux env id _ _ _ st a hne).2.1,
        (explicitFireStep_aux env id _ _ _ st a hne).2.2⟩
    · exact ⟨(contFireStep_aux env snap id pos alive _ st a hne).1,
        (contFireStep_aux env snap id pos alive _ st a hne).2.1,
        (contFireStep_aux env snap id pos alive _ st a hne).2.2⟩

theorem actorFireStep_misc (env : Env) (snap : List (Nat × Vec3 × Bool))
    (id : Nat) (pos : Vec3) (alive : Bool) (fm : List (Nat × Vec3 × Vec3))
    (st : SrvState) :
    miscEq (actorFireStep env snap id pos alive fm st).1 st := by
  simp only [actorFireStep]
  split
  · exact miscEq_refl _
  · split
    · exact (explicitFireStep_aux env id _ _ _ st (id + 1) (by omega)).2.1
    · exact (contFireStep_aux env snap id pos alive _ st (id + 1) (by omega)).2.1

theorem firePass_misc (env : Env) (snap0 : List (Nat × Vec3 × Bool)) :
    ∀ (snap : List (Nat × Vec3 × Bool)) (fm : List (Nat × Vec3 × Vec3))
      (st : SrvState), miscEq (firePass env snap0 snap fm st).1 st
  | [], _, st => miscEq_refl st
  | (id, pos, alive) :: rest, fm, st => by
      simp only [firePass]
      exact miscEq_trans
        (firePass_misc env snap0 rest _ _)
        (actorFireStep_misc env snap0 id pos alive fm st)

theorem respawnApply_misc (env : Env) :
    ∀ (l : List Nat) (st : SrvState), miscEq (respawnApply env l st).1 st
  | [], st => miscEq_refl st
  | pid :: rest, st => by
      simp only [respawnApply]
      split <;>
        exact miscEq_trans (respawnApply_misc env rest _)
          ⟨rfl, rfl, rfl, rfl, rfl, rfl, rfl, rfl, rfl⟩

/-- Claim C10: an explicit Fire request from an actor with no latest-input
entry is silently discarded during the combat pass: the actor's weapon entry
is untouched, no Fire event carries that actor's id, the latest-input buffer
itself is unchanged, and in an Active-phase tick the pending-fire queue ends
the tick empty, so the request is never retried. -/
theorem fire_request_without_input_discarded (env : Env)
    (snap0 snap : List (Nat × Vec3 × Bool)) (fm : List (Nat × Vec3 × Vec3))
    (st : SrvState) (a : Nat) (ha : lookupA st.lastInputs a = none) :
    lookupA (firePass env snap0 snap fm st).1.weapons a = lookupA st.weapons a ∧
    (∀ e ∈ (firePass env snap0 snap fm st).2, fireEvShooter e ≠ some a) ∧
    (firePass env snap0 snap fm st).1.lastInputs = st.lastInputs ∧
    (st.phase = RoundPhase.active → (srvShootTick env st).1.fires = []) := by
  have main : ∀ (snap : List (Nat × Vec3 × Bool)) (fm : List (Nat × Vec3 × Vec3))
      (st : SrvState), lookupA st.lastInputs a = none →
      lookupA (firePass env snap0 snap fm st).1.weapons a = lookupA st.weapons a ∧
      (∀ e ∈ (firePass env snap0 snap fm st).2, fireEvShooter e ≠ some a) ∧
      (firePass env snap0 snap fm st).1.lastInputs = st.lastInputs := by
    intro snap
    induction snap with
    | nil =>
        intro fm st h
        exact ⟨rfl, by simp [firePass], rfl⟩
    | cons hd rest ih =>
        intro fm st h
        obtain ⟨id, pos, alive⟩ := hd
        by_cases hid : id = a
        · subst hid
          simp only [firePass, actorFireStep_skip env snap0 id pos alive fm st h,
            List.nil_append]
          exact ih fm st h
        · have hne : a ≠ id := fun hc => hid hc.symm
          have haux := actorFireStep_aux env snap0 id pos alive fm st a hne
          have hlinp : (actorFireStep env snap0 id pos alive fm st).1.lastInputs =
              st.lastInputs := haux.2.1.2.2.2.1
          have hrec := ih (actorFireStep env snap0 id pos alive fm st).2.1
            (actorFireStep env snap0 id pos alive fm st).1 (by rw [hlinp]; exact h)
          simp only [firePass]
          refine ⟨hrec.1.trans haux.1, ?_, hrec.2.2.trans hlinp⟩
          intro e he
          rcases List.mem_append.mp he with he1 | he1
          · rcases haux.2.2 e he1 with hh | hh
            · simp [hh]
            · rw [hh]
              intro hc
              apply hne
              injection hc with hcc
              exact hcc.symm
          · exact hrec.2.1 e he1
  refine ⟨(main snap fm st ha).1, (main snap fm st ha).2.1, (main snap fm st ha).2.2, ?_⟩
  intro hph
  have hact : ¬ st.phase ≠ RoundPhase.active := by simp [hph]
  simp only [srvShootTick, if_neg hact]
  have h1 := firePass_misc env
    (snapOf { st with weapons := (tickWeapons env.dt st.weapons).1 })
    (snapOf { st with weapons := (tickWeapons env.dt st.weapons).1 })
    (buildFiremap env.geom ({ st with weapons := (tickWeapons env.dt st.weapons).1 }).fires)
    ({ st with weapons := (tickWeapons env.dt st.weapons).1, fires := [] })
  have h2 := respawnApply_misc env
  -- fires is [] entering the fire pass and no later stage writes it
  have hfires1 : (firePass env
      (snapOf { st with weapons := (tickWeapons env.dt st.weapons).1 })
      (snapOf { st with weapons := (tickWeapons env.dt st.weapons).1 })
      (buildFiremap env.geom ({ st with weapons := (tickWeapons env.dt st.weapons).1 }).fires)
      ({ st with weapons := (tickWeapons env.dt st.weapons).1, fires := [] })).1.fires = [] :=
    h1.2.2.1
  simp only [respawnPass]
  exact (h2 _ _).2.2.1.trans hfires1

/-- Witness for fire_request_without_input_discarded: actor 2 has a queued
explicit request but no input frame. -/
theorem fire_request_without_input_discarded_witness :
    lookupA (firePass envS [] [(2, ⟨0, 0, 0⟩, true)]
        [(2, (⟨0, 7/10, 0⟩, ⟨0, 0, -1⟩))] stIdle).1.weapons 2 =
      lookupA stIdle.weapons 2 ∧
    (∀ e ∈ (firePass envS [] [(2, ⟨0, 0, 0⟩, true)]
        [(2, (⟨0, 7/10, 0⟩, ⟨0, 0, -1⟩))] stIdle).2, fireEvShooter e ≠ some 2) ∧
    (firePass envS [] [(2, ⟨0, 0, 0⟩, true)]
        [(2, (⟨0, 7/10, 0⟩, ⟨0, 0, -1⟩))] stIdle).1.lastInputs = stIdle.lastInputs ∧
    (stIdle.phase = RoundPhase.active → (srvShootTick envS stIdle).1.fires = []) :=
  fire_request_without_input_discarded envS [] [(2, ⟨0, 0, 0⟩, true)]
    [(2, (⟨0, 7/10, 0⟩, ⟨0, 0, -1⟩))] stIdle 2 (by decide)

-- ===== Claim C7: timer decrements and the round-phase guard =====

theorem lookupA_map_val {α β : Type} (f : α → β) (l : List (Nat × α)) (k : Nat) :
    lookupA (l.map (fun e => (e.1, f e.2))) k = (lookupA l k).map f := by
  induction l with
  | nil => simp [lookupA]
  | cons hd tl ih =>
      obtain ⟨k', v⟩ := hd
      by_cases h : k' = k <;> simp [lookupA, h, ih]

theorem lookupA_tickWeapons (dt : ℚ) (l : List (Nat × WeaponStatus)) (k : Nat) :
    lookupA (tickWeapons dt l).1 k = (lookupA l k).map (fun w => (tickWeapon dt w).1) := by
  induction l with
  | nil => simp [tickWeapons, lookupA]
  | cons hd tl ih =>
      obtain ⟨k', v⟩ := hd
      by_cases h : k' = k <;> simp [tickWeapons, lookupA, h, ih]

/-- The weapon timer tick written as one clamped-decrement formula. -/
theorem tickWeapon_spec (dt : ℚ) (w : WeaponStatus) :
    (tickWeapon dt w).1 =
      { ammo := if 0 < w.reload ∧ max (w.reload - dt) 0 = 0 then MAG_SIZE else w.ammo,
        cooldown := if 0 < w.cooldown then max (w.cooldown - dt) 0 else w.cooldown,
        reload := if 0 < w.reload then max (w.reload - dt) 0 else w.reload } := by
  simp only [tickWeapon]
  by_cases h1 : w.reload > 0 <;> by_cases h2 : max (w.reload - dt) 0 = 0 <;>
    simp [h1, h2]

/-- A quiet Ending-phase state with running weapon, protection and respawn
timers. -/
def stEnd : SrvState :=
  { players := [(1, actorW)], bots := [], weapons := [(1, ⟨5, 1, 0⟩)],
    lastFire := [(1, 0)], protect := [(1, 1)], respawns := [(2, 1)],
    botRespawns := [], scores := [(1, (0, 0))], hist := [], simTime := 1,
    fires := [], lastInputs := [(1, inpW)], phase := RoundPhase.ending,
    timeLeft := 0, endTimer := 4, jumps := [], botFSM := [], botFocus := [] }

/-- Counterexample to claim C7 as stated: on an Ending-phase tick the combat
system returns the state untouched — the weapon cooldown (1 s), the
protection timer and the respawn countdown are all NOT decremented by dt,
contradicting the regardless-of-phase reading. -/
theorem ending_phase_skips_timer_decrements :
    (srvShootTick envS stEnd).1 = stEnd ∧
    lookupA (srvShootTick envS stEnd).1.weapons 1 =
      some { ammo := 5, cooldown := 1, reload := 0 } ∧
    lookupA (srvShootTick envS stEnd).1.protect 1 = some 1 ∧
    lookupA (srvShootTick envS stEnd).1.respawns 2 = some 1 ∧
    (1 : ℚ) - envS.dt ≠ 1 := by
  refine ⟨?_, ?_, ?_, ?_, ?_⟩
  · decide
  · decide
  · decide
  · decide
  · have hdt : envS.dt = 1/60 := rfl
    rw [hdt]
    norm_num

/-- Claim C7 (amended): on every Active-phase tick the combat system first
decrements every weapon cooldown and reload timer by dt clamped at zero
(refilling on reload completion), runs the fire pass, decrements every
positive protection timer by dt clamped at zero, and decrements every
respawn countdown by dt (expiring at zero or below); on an Ending-phase
tick the system returns early and none of these timers move. -/
theorem active_phase_timer_decrements (env : Env) (st : SrvState) :
    (st.phase = RoundPhase.ending → srvShootTick env st = (st, [])) ∧
    (st.phase = RoundPhase.active →
      (srvShootTick env st =
        (let rW := tickWeapons env.dt st.weapons
         let st1 := { st with weapons := rW.1 }
         let snap := snapOf st1
         let fm := buildFiremap env.geom st1.fires
         let st2 := { st1 with fires := [] }
         let rF := firePass env snap snap fm st2
         let st4 := { rF.1 with protect := tickProtect env.dt rF.1.protect }
         let rR := respawnPass env st4
         (rR.1, rW.2 ++ rF.2 ++ rR.2))) ∧
      (∀ id t, lookupA st.protect id = some t →
         lookupA (tickProtect env.dt st.protect) id =
           some (if 0 < t then max (t - env.dt) 0 else t)) ∧
      (∀ id w, lookupA st.weapons id = some w →
         lookupA (tickWeapons env.dt st.weapons).1 id = some
           { ammo := if 0 < w.reload ∧ max (w.reload - env.dt) 0 = 0 then MAG_SIZE
                     else w.ammo,
             cooldown := if 0 < w.cooldown then max (w.cooldown - env.dt) 0
                         else w.cooldown,
             reload := if 0 < w.reload then max (w.reload - env.dt) 0
                       else w.reload }) ∧
      (∀ id t, lookupA st.respawns id = some t →
         lookupA (st.respawns.map (fun e => (e.1, e.2 - env.dt))) id =
           some (t - env.dt))) := by
  constructor
  · intro h
    have hne : st.phase ≠ RoundPhase.active := by
      rw [h]
      intro hc
      exact RoundPhase.noConfusion hc
    simp only [srvShootTick, if_pos hne]
  · intro h
    refine ⟨?_, ?_, ?_, ?_⟩
    · have hact : ¬ st.phase ≠ RoundPhase.active := by simp [h]
      simp only [srvShootTick, if_neg hact]
    · intro id t hl
      simp only [tickProtect]
      rw [lookupA_map_val (fun t => if 0 < t then max (t - env.dt) 0 else t)
        st.protect id]
      simp [hl]
    · intro id w hl
      rw [lookupA_tickWeapons, hl]
      simp [tickWeapon_spec]
    · intro id t hl
      rw [lookupA_map_val (fun t => t - env.dt) st.respawns id]
      simp [hl]

/-- Witness for active_phase_timer_decrements: the weapon-timer formula on
the quiet Active-phase state. -/
theorem active_phase_timer_decrements_witness :
    lookupA (tickWeapons envS.dt stIdle.weapons).1 1 = some
      { ammo := if 0 < weaponFull.reload ∧ max (weaponFull.reload - envS.dt) 0 = 0
                then MAG_SIZE else weaponFull.ammo,
        cooldown := if 0 < weaponFull.cooldown
                    then max (weaponFull.cooldown - envS.dt) 0
                    else weaponFull.cooldown,
        reload := if 0 < weaponFull.reload then max (weaponFull.reload - envS.dt) 0
                  else weaponFull.reload } :=
  ((active_phase_timer_decrements envS stIdle).2 rfl).2.2.1 1 weaponFull (by decide)

-- ===== Claim C8: the Ending→Active round reset =====

/-- The state-reset shape every respawned player gets: full health, alive,
standing at a registered spawn point or the fixed fallback. -/
def resetForm (env : Env) (p : ActorState) : Prop :=
  p.hp = 100 ∧ p.alive = true ∧ (p.pos ∈ env.spawns ∨ p.pos = ⟨0, 10, 5⟩)

theorem chooseSpawn_fold_mem (g : Geom) (players : List (Nat × ActorState))
    (S : List Vec3) :
    ∀ (l : List Vec3) (acc : Vec3 × Option (Option ℚ)), acc.1 ∈ S →
      (∀ p ∈ l, p ∈ S) →
      (l.foldl
        (fun (acc : Vec3 × Option (Option ℚ)) p =>
          let mind := minDistToAlive g players p
          match acc.2 with
          | none => (p, some mind)
          | some best => if optGT mind best then (p, some mind) else acc)
        acc).1 ∈ S := by
  intro l
  induction l with
  | nil => intro acc ha _; simpa using ha
  | cons p ps ih =>
      intro acc ha hl
      simp only [List.foldl_cons]
      apply ih
      · cases hacc : acc.2 with
        | none => simpa using hl p (by simp)
        | some best =>
            by_cases hgt : optGT (minDistToAlive g players p) best = true
            · simp [hacc, hgt]
              exact hl p (by simp)
            · simp [hacc, hgt]
              simpa using ha
      · intro q hq
        exact hl q (by simp [hq])

/-- choose_spawn_point always lands in the registered set or the fallback. -/
theorem choose_spawn_point_mem (env : Env) (players : List (Nat × ActorState)) :
    choose_spawn_point env players ∈ env.spawns ∨
    choose_spawn_point env players = ⟨0, 10, 5⟩ := by
  unfold choose_spawn_point
  split
  · exact Or.inr rfl
  · split
    · exact Or.inr rfl
    · rename_i s0 rest heq
      left
      apply chooseSpawn_fold_mem env.geom players env.spawns env.spawns (s0, none)
      · rw [heq]
        simp
      · intro p hp
        exact hp

theorem lookupA_setKey_isSome {α : Type} (l : List (Nat × α)) (k : Nat) (v : α)
    (hk : (lookupA l k).isSome) (j : Nat) :
    (lookupA (setKey l k v) j).isSome = (lookupA l j).isSome := by
  by_cases h : j = k
  · subst h
    rw [lookupA_setKey_self]
    cases hl : lookupA l j
    · rw [hl] at hk
      simp at hk
    · simp
  · rw [lookupA_setKey_ne _ _ _ _ h]

/-- The respawn sweep of the round reset: every id in the list that is in
the player map ends in reset form, reset forms are preserved, and the key
domain does not change. -/
theorem roundRespawnAll_spec (env : Env) :
    ∀ (ids : List Nat) (players : List (Nat × ActorState)) (jumps : List (Nat × Nat)),
      (∀ j, (lookupA (roundRespawnAll env ids players jumps).1 j).isSome =
        (lookupA players j).isSome) ∧
      (∀ j ∈ ids, ∀ p0, lookupA players j = some p0 →
        ∃ p, lookupA (roundRespawnAll env ids players jumps).1 j = some p ∧
          resetForm env p) ∧
      (∀ j p0, lookupA players j = some p0 → resetForm env p0 →
        ∃ p, lookupA (roundRespawnAll env ids players jumps).1 j = some p ∧
          resetForm env p)
  | [], players, jumps => by
      refine ⟨fun j => rfl, by simp, ?_⟩
      intro j p0 h1 h2
      exact ⟨p0, h1, h2⟩
  | id :: ids, players, jumps => by
      cases hpl : lookupA players id with
      | none =>
          have ih := roundRespawnAll_spec env ids players jumps
          simp only [roundRespawnAll, hpl]
          refine ⟨ih.1, ?_, ih.2.2⟩
          intro j hj p0 hp0
          rcases List.mem_cons.mp hj with hj | hj
          · subst hj
            rw [hpl] at hp0
            exact absurd hp0 (by simp)
          · exact ih.2.1 j hj p0 hp0
      | some p =>
          have hreset : resetForm env
              { p with
                alive := true, hp := 100, pos := choose_spawn_point env players,
                vy := 0, grounded := true } := by
            refine ⟨rfl, rfl, ?_⟩
            exact choose_spawn_point_mem env players
          have hdom : ∀ j,
              (lookupA (setKey players id
                { p with
                  alive := true, hp := 100, pos := choose_spawn_point env players,
                  vy := 0, grounded := true }) j).isSome =
              (lookupA players j).isSome := by
            intro j
            exact lookupA_setKey_isSome players id _ (by simp [hpl]) j
          cases hj : lookupA jumps id with
          | none =>
              have ih := roundRespawnAll_spec env ids
                (setKey players id
                  { p with
                    alive := true, hp := 100, pos := choose_spawn_point env players,
                    vy := 0, grounded := true }) jumps
              simp only [roundRespawnAll, hpl, hj]
              refine ⟨?_, ?_, ?_⟩
              · intro j
                rw [ih.1 j, hdom j]
              · intro j hjm p0 hp0
                rcases List.mem_cons.mp hjm with hjj | hjj
                · subst hjj
                  exact ih.2.2 j _ (lookupA_setKey_self _ _ _) hreset
                · by_cases hji : j = id
                  · subst hji
                    exact ih.2.2 j _ (lookupA_setKey_self _ _ _) hreset
                  · exact ih.2.1 j hjj p0
                      (by rw [lookupA_setKey_ne _ _ _ _ hji]; exact hp0)
              · intro j p0 hp0 hform
                by_cases hji : j = id
                · subst hji
                  exact ih.2.2 j _ (lookupA_setKey_self _ _ _) hreset
                · exact ih.2.2 j p0
                    (by rw [lookupA_setKey_ne _ _ _ _ hji]; exact hp0) hform
          | some jv =>
              have ih := roundRespawnAll_spec env ids
                (setKey players id
                  { p with
                    alive := true, hp := 100, pos := choose_spawn_point env players,
                    vy := 0, grounded := true }) (setKey jumps id 0)
              simp only [roundRespawnAll, hpl, hj]
              refine ⟨?_, ?_, ?_⟩
              · intro j
                rw [ih.1 j, hdom j]
              · intro j hjm p0 hp0
                rcases List.mem_cons.mp hjm with hjj | hjj
                · subst hjj
                  exact ih.2.2 j _ (lookupA_setKey_self _ _ _) hreset
                · by_cases hji : j = id
                  · subst hji
                    exact ih.2.2 j _ (lookupA_setKey_self _ _ _) hreset
                  · exact ih.2.1 j hjj p0
                      (by rw [lookupA_setKey_ne _ _ _ _ hji]; exact hp0)
              · intro j p0 hp0 hform
                by_cases hji : j = id
                · subst hji
                  exact ih.2.2 j _ (lookupA_setKey_self _ _ _) hreset
                · exact ih.2.2 j p0
                    (by rw [lookupA_setKey_ne _ _ _ _ hji]; exact hp0) hform


/-- An Ending-phase state whose countdown is about to elapse: one human at
40 hp and dead, a 3-round magazine, a nonzero score entry, a pending
respawn timer and a consumed double-jump. -/
def stEnd8 : SrvState :=
  { players := [(1, { actorW with hp := 40, alive := false })], bots := [],
    weapons := [(1, ⟨3, 0, 0⟩)], lastFire := [(1, 0)], protect := [],
    respawns := [(2, 1)], botRespawns := [], scores := [(1, (4, 2))],
    hist := [], simTime := 1, fires := [], lastInputs := [],
    phase := RoundPhase.ending, timeLeft := 7, endTimer := 1/100,
    jumps := [(1, 2)], botFSM := [], botFocus := [] }

theorem round_update_stEnd8_eval :
    round_update envS stEnd8 =
      ({ stEnd8 with
          players := [(1, actorAt ⟨0, 10, 5⟩)],
          jumps := [(1, 0)], respawns := [],
          scores := [(1, (0, 0))], phase := RoundPhase.active,
          timeLeft := ROUND_TIME_SEC, endTimer := stEnd8.endTimer - envS.dt },
       [EventMsg.spawnEv 1 ⟨0, 10, 5⟩ ActorKind.human,
        EventMsg.roundStartEv ROUND_TIME_SEC]) := by
  have h : stEnd8.endTimer - envS.dt ≤ 0 := by
    show (1/100 : ℚ) - 1/60 ≤ 0
    norm_num
  have hph : stEnd8.phase = RoundPhase.ending := rfl
  simp only [round_update, hph]
  rw [if_pos h]
  rfl

/-- Counterexample to claim C8 as stated: the elapsing Ending countdown does
transition back to Active, respawn the player, zero the score and restore
the clock — but the weapon map is untouched: the 3-round magazine stays at
3 rounds, not refilled to the full MAG_SIZE of 12. -/
theorem round_reset_does_not_refill_weapons :
    (round_update envS stEnd8).1.phase = RoundPhase.active ∧
    (round_update envS stEnd8).1.timeLeft = ROUND_TIME_SEC ∧
    (round_update envS stEnd8).1.scores = [(1, (0, 0))] ∧
    (round_update envS stEnd8).1.players = [(1, actorAt ⟨0, 10, 5⟩)] ∧
    (round_update envS stEnd8).1.weapons = stEnd8.weapons ∧
    lookupD (round_update envS stEnd8).1.weapons 1 weaponFull ≠ weaponFull ∧
    (lookupD (round_update envS stEnd8).1.weapons 1 weaponFull).ammo = 3 ∧
    MAG_SIZE = 12 := by
  rw [round_update_stEnd8_eval]
  refine ⟨rfl, rfl, rfl, rfl, rfl, ?_, rfl, rfl⟩
  intro hc
  have : (3 : Nat) = 12 := congrArg WeaponStatus.ammo hc
  exact absurd this (by decide)

/-- Claim C8 (amended): when the Ending countdown elapses, the transition
back to Active respawns every human actor with full health at a registered
spawn point (or the fixed fallback), zeroes all score entries, clears the
respawn timers and restores the round clock to its full duration; the
weapon map is left exactly as it was — no magazine is refilled. -/
theorem round_end_transition_resets_without_refill (env : Env) (st : SrvState)
    (hph : st.phase = RoundPhase.ending) (hT : st.endTimer - env.dt ≤ 0) :
    (round_update env st).1.phase = RoundPhase.active ∧
    (round_update env st).1.timeLeft = ROUND_TIME_SEC ∧
    (round_update env st).1.scores = st.scores.map (fun e => (e.1, (0, 0))) ∧
    (round_update env st).1.respawns = [] ∧
    (round_update env st).1.weapons = st.weapons ∧
    (∀ j, (lookupA (round_update env st).1.players j).isSome =
      (lookupA st.players j).isSome) ∧
    (∀ j p0, lookupA st.players j = some p0 →
      ∃ p, lookupA (round_update env st).1.players j = some p ∧
        resetForm env p) := by
  have hr := roundRespawnAll_spec env (st.players.map Prod.fst) st.players st.jumps
  simp only [round_update, hph]
  rw [if_pos hT]
  refine ⟨rfl, rfl, rfl, rfl, rfl, ?_, ?_⟩
  · intro j
    exact hr.1 j
  · intro j p0 hp0
    have hmem : j ∈ st.players.map Prod.fst :=
      List.mem_map.mpr ⟨(j, p0), lookupA_mem _ _ _ hp0, rfl⟩
    exact hr.2.1 j hmem p0 hp0

/-- Witness for round_end_transition_resets_without_refill at the concrete
Ending-phase state stEnd8. -/
theorem round_end_transition_resets_without_refill_witness :
    stEnd8.phase = RoundPhase.ending ∧ stEnd8.endTimer - envS.dt ≤ 0 ∧
    ((round_update envS stEnd8).1.phase = RoundPhase.active ∧
     (round_update envS stEnd8).1.timeLeft = ROUND_TIME_SEC ∧
     (round_update envS stEnd8).1.scores =
       stEnd8.scores.map (fun e => (e.1, (0, 0))) ∧
     (round_update envS stEnd8).1.respawns = [] ∧
     (round_update envS stEnd8).1.weapons = stEnd8.weapons ∧
     (∀ j, (lookupA (round_update envS stEnd8).1.players j).isSome =
       (lookupA stEnd8.players j).isSome) ∧
     (∀ j p0, lookupA stEnd8.players j = some p0 →
       ∃ p, lookupA (round_update envS stEnd8).1.players j = some p ∧
         resetForm envS p)) :=
  ⟨rfl, by show (1/100 : ℚ) - 1/60 ≤ 0; norm_num,
   round_end_transition_resets_without_refill envS stEnd8 rfl
     (by show (1/100 : ℚ) - 1/60 ≤ 0; norm_num)⟩


-- ===== Claim C3: gate behavior of the two fire paths =====

/-- Every branch of the explicit hit-resolution stage emits the Fire event
first. -/
theorem explicitFireResolve_fireEv (env : Env) (id : Nat) (origin forward : Vec3)
    (st : SrvState) :
    ∃ ho tl, (explicitFireResolve env id origin forward st).2 =
      EventMsg.fireEv id origin forward ho :: tl := by
  simp only [explicitFireResolve]
  split
  all_goals try split
  all_goals try split
  all_goals try split
  all_goals exact ⟨_, _, rfl⟩

/-- A state whose single human shooter is dead with a full magazine. -/
def stDead3 : SrvState :=
  { players := [(1, { actorW with hp := 0, alive := false })], bots := [],
    weapons := [(1, weaponFull)], lastFire := [(1, 0)], protect := [],
    respawns := [], botRespawns := [], scores := [], hist := [], simTime := 1,
    fires := [], lastInputs := [(1, inpW)], phase := RoundPhase.active,
    timeLeft := 300, endTimer := 0, jumps := [], botFSM := [], botFocus := [] }

/-- A state whose single living shooter is mid-cooldown. -/
def stCd3 : SrvState :=
  { stDead3 with players := [(1, actorW)], weapons := [(1, ⟨5, 1, 0⟩)] }

/-- Counterexample to claim C3 as stated: an explicit Fire request from a
dead shooter is NOT rejected — one round is consumed and both the ammo
update and the Fire event are emitted (the explicit path never consults the
alive flag); and a continuous-path shot rejected by the cooldown gate still
mutates state: the last-processed fire sequence number advances from 0 to
the rejected frame's sequence number. -/
theorem dead_shooter_explicit_fire_consumes_ammo :
    (lookupA stDead3.players 1).map ActorState.alive = some false ∧
    lookupD (explicitFireStep envS 1 inpW ⟨0, 0, 0⟩ ⟨0, 0, -1⟩ stDead3).1.weapons 1
      weaponFull =
      { ammo := MAG_SIZE - 1, cooldown := FIRE_COOLDOWN, reload := 0 } ∧
    (explicitFireStep envS 1 inpW ⟨0, 0, 0⟩ ⟨0, 0, -1⟩ stDead3).2 =
      [EventMsg.ammoEv 1 (MAG_SIZE - 1) false,
       EventMsg.fireEv 1 ⟨0, 0, 0⟩ ⟨0, 0, -1⟩ none] ∧
    (contFireStep envS (snapOf stCd3) 1 ⟨0, 0, 0⟩ true inpW stCd3).2 = [] ∧
    lookupD (contFireStep envS (snapOf stCd3) 1 ⟨0, 0, 0⟩ true inpW stCd3).1.weapons
      1 weaponFull = lookupD stCd3.weapons 1 weaponFull ∧
    lookupD (contFireStep envS (snapOf stCd3) 1 ⟨0, 0, 0⟩ true inpW stCd3).1.lastFire
      1 0 = 5 ∧
    lookupD stCd3.lastFire 1 0 = 0 :=
  ⟨rfl, rfl, rfl, rfl, rfl, rfl, rfl⟩

/-- Claim C3 (amended): continuous path — a set fire flag with a fresh
sequence number and a live snapshot entry, rejected by reload, cooldown or
protection, consumes no ammo and emits nothing but still records the new
sequence number; a dead shooter (stale sequence, or clear flag) leaves even
the sequence number unchanged; with every gate passed and an empty magazine
a reload is started instead of firing.  Explicit path — the alive flag is
never consulted: the request is rejected exactly when mid-reload,
mid-cooldown or protected, and even then the sequence number is recorded;
an empty magazine starts a reload; otherwise one round is consumed and the
ammo update and Fire event are emitted. -/
theorem fire_gate_behavior (env : Env) (snap : List (Nat × Vec3 × Bool))
    (id : Nat) (pos origin forward : Vec3) (alive : Bool) (inp : InputFrame)
    (st : SrvState) :
    (inp.fire = true → inp.seq ≠ lookupD st.lastFire id 0 → alive = true →
      (lookupD st.weapons id weaponFull).reload > 0 ∨
        (lookupD st.weapons id weaponFull).cooldown > 0 ∨
        lookupD st.protect id (0 : ℚ) > 0 →
      (contFireStep env snap id pos alive inp st).2 = [] ∧
      lookupD (contFireStep env snap id pos alive inp st).1.weapons id weaponFull =
        lookupD st.weapons id weaponFull ∧
      lookupD (contFireStep env snap id pos alive inp st).1.lastFire id 0 =
        inp.seq) ∧
    (alive = false →
      (contFireStep env snap id pos alive inp st).2 = [] ∧
      lookupD (contFireStep env snap id pos alive inp st).1.weapons id weaponFull =
        lookupD st.weapons id weaponFull ∧
      lookupD (contFireStep env snap id pos alive inp st).1.lastFire id 0 =
        lookupD st.lastFire id 0) ∧
    (inp.fire = true → inp.seq ≠ lookupD st.lastFire id 0 → alive = true →
      (lookupD st.weapons id weaponFull).reload ≤ 0 →
      (lookupD st.weapons id weaponFull).cooldown ≤ 0 →
      lookupD st.protect id (0 : ℚ) ≤ 0 →
      (lookupD st.weapons id weaponFull).ammo = 0 →
      (contFireStep env snap id pos alive inp st).2 =
        [EventMsg.ammoEv id 0 true] ∧
      lookupD (contFireStep env snap id pos alive inp st).1.weapons id weaponFull =
        { lookupD st.weapons id weaponFull with reload := RELOAD_TIME }) ∧
    (¬ ((lookupD st.weapons id weaponFull).reload ≤ 0 ∧
        (lookupD st.weapons id weaponFull).cooldown ≤ 0 ∧
        lookupD st.protect id (0 : ℚ) ≤ 0) →
      (explicitFireStep env id inp origin forward st).2 = [] ∧
      lookupD (explicitFireStep env id inp origin forward st).1.weapons id
        weaponFull = lookupD st.weapons id weaponFull ∧
      lookupD (explicitFireStep env id inp origin forward st).1.lastFire id 0 =
        inp.seq) ∧
    ((lookupD st.weapons id weaponFull).reload ≤ 0 ∧
        (lookupD st.weapons id weaponFull).cooldown ≤ 0 ∧
        lookupD st.protect id (0 : ℚ) ≤ 0 →
      (lookupD st.weapons id weaponFull).ammo = 0 →
      (explicitFireStep env id inp origin forward st).2 =
        [EventMsg.ammoEv id 0 true] ∧
      lookupD (explicitFireStep env id inp origin forward st).1.weapons id
        weaponFull =
        { lookupD st.weapons id weaponFull with reload := RELOAD_TIME }) ∧
    ((lookupD st.weapons id weaponFull).reload ≤ 0 ∧
        (lookupD st.weapons id weaponFull).cooldown ≤ 0 ∧
        lookupD st.protect id (0 : ℚ) ≤ 0 →
      (lookupD st.weapons id weaponFull).ammo ≠ 0 →
      lookupD (explicitFireStep env id inp origin forward st).1.weapons id
        weaponFull =
        { ammo := (lookupD st.weapons id weaponFull).ammo - 1,
          cooldown := FIRE_COOLDOWN,
          reload := (lookupD st.weapons id weaponFull).reload } ∧
      ∃ ho tl, (explicitFireStep env id inp origin forward st).2 =
        EventMsg.ammoEv id ((lookupD st.weapons id weaponFull).ammo - 1) false ::
          EventMsg.fireEv id origin forward ho :: tl) := by
  refine ⟨?_, ?_, ?_, ?_, ?_, ?_⟩
  · intro hf hs ha hrej
    have hg : inp.fire = true ∧ inp.seq ≠ lookupD st.lastFire id 0 ∧
        alive = true := ⟨hf, hs, ha⟩
    simp only [contFireStep]
    rw [if_pos hg]
    by_cases hwc : (lookupD st.weapons id weaponFull).reload > 0 ∨
        (lookupD st.weapons id weaponFull).cooldown > 0
    · rw [if_pos hwc]
      refine ⟨rfl, ?_, ?_⟩ <;> simp [lookupD, lookupA_setKey_self]
    · have hpr : lookupD st.protect id (0 : ℚ) > 0 := by
        rcases hrej with h | h | h
        · exact absurd (Or.inl h) hwc
        · exact absurd (Or.inr h) hwc
        · exact h
      rw [if_neg hwc, if_pos hpr]
      refine ⟨rfl, ?_, ?_⟩ <;> simp [lookupD, lookupA_setKey_self]
  · intro ha
    have hng : ¬ (inp.fire = true ∧ inp.seq ≠ lookupD st.lastFire id 0 ∧
        alive = true) := by
      rintro ⟨-, -, hca⟩
      rw [ha] at hca
      exact Bool.noConfusion hca
    rw [contFireStep_of_not_guard env snap id pos alive inp st hng]
    refine ⟨rfl, ?_, ?_⟩ <;> simp [lookupD, lookupA_setKey_self]
  · intro hf hs ha hre hcd hpr hammo
    have hg : inp.fire = true ∧ inp.seq ≠ lookupD st.lastFire id 0 ∧
        alive = true := ⟨hf, hs, ha⟩
    simp only [contFireStep]
    rw [if_pos hg]
    have hwc : ¬ ((lookupD st.weapons id weaponFull).reload > 0 ∨
        (lookupD st.weapons id weaponFull).cooldown > 0) := by
      simp only [not_or, not_lt]
      exact ⟨hre, hcd⟩
    rw [if_neg hwc, if_neg (not_lt.mpr hpr), if_pos hammo, if_pos hre]
    refine ⟨?_, ?_⟩
    · rw [hammo]
    · simp [lookupD, lookupA_setKey_self]
  · intro hrej
    simp only [explicitFireStep]
    rw [if_neg hrej]
    refine ⟨rfl, ?_, ?_⟩ <;> simp [lookupD, lookupA_setKey_self]
  · intro hacc hammo
    simp only [explicitFireStep]
    rw [if_pos hacc, if_pos hammo, if_pos hacc.1]
    refine ⟨?_, ?_⟩
    · rw [hammo]
    · simp [lookupD, lookupA_setKey_self]
  · intro hacc hammo
    simp only [explicitFireStep]
    rw [if_pos hacc, if_neg hammo]
    refine ⟨?_, ?_⟩
    · rw [(explicitFireResolve_aux env id origin forward _).2.1]
      simp [lookupD, lookupA_setKey_self]
    · obtain ⟨ho, tl, hev⟩ := explicitFireResolve_fireEv env id origin forward
        ({ st with
            lastFire := setKey st.lastFire id inp.seq,
            weapons := setKey
              (setKey st.weapons id (lookupD st.weapons id weaponFull)) id
              { ammo := (lookupD st.weapons id weaponFull).ammo - 1,
                cooldown := FIRE_COOLDOWN,
                reload := (lookupD st.weapons id weaponFull).reload } })
      exact ⟨ho, tl, by rw [hev]⟩

/-- Witness for fire_gate_behavior: the mid-cooldown state stCd3 rejecting an
explicit request while still recording its sequence number. -/
theorem fire_gate_behavior_witness :
    (¬ ((lookupD stCd3.weapons 1 weaponFull).reload ≤ 0 ∧
        (lookupD stCd3.weapons 1 weaponFull).cooldown ≤ 0 ∧
        lookupD stCd3.protect 1 (0 : ℚ) ≤ 0)) ∧
    ((explicitFireStep envS 1 inpW ⟨0, 0, 0⟩ ⟨0, 0, -1⟩ stCd3).2 = [] ∧
     lookupD (explicitFireStep envS 1 inpW ⟨0, 0, 0⟩ ⟨0, 0, -1⟩ stCd3).1.weapons 1
       weaponFull = lookupD stCd3.weapons 1 weaponFull ∧
     lookupD (explicitFireStep envS 1 inpW ⟨0, 0, 0⟩ ⟨0, 0, -1⟩ stCd3).1.lastFire 1
       0 = inpW.seq) := by
  have hneg : ¬ ((lookupD stCd3.weapons 1 weaponFull).reload ≤ 0 ∧
      (lookupD stCd3.weapons 1 weaponFull).cooldown ≤ 0 ∧
      lookupD stCd3.protect 1 (0 : ℚ) ≤ 0) := by decide
  exact ⟨hneg,
    (fire_gate_behavior envS (snapOf stCd3) 1 ⟨0, 0, 0⟩ ⟨0, 0, 0⟩ ⟨0, 0, -1⟩
      true inpW stCd3).2.2.2.1 hneg⟩


-- ===== Claim C1: continuous-path occlusion for bot targets =====

/-- Trigonometry at yaw 0 / pitch 0: sin 0, cos 1. -/
def geom01 : Geom := ⟨fun _ => 0, fun _ => 1, fun _ => 0⟩

/-- A world whose every ray first meets entity 99 at distance 2. -/
def worldBlock : World := fun _ _ _ _ => some (99, 2)

def envC1 : Env :=
  { geom := geom01, world := worldBlock, ents := [(1, 10)], botEnts := [(2, 20)],
    spawns := [], useSpawnPoints := true, dt := 1/60 }

/-- A living human shooter at the origin and a living bot five metres down
the -Z axis. -/
def stC1 : SrvState :=
  { players := [(1, actorW)], bots := [(2, actorAt ⟨0, 0, -5⟩)],
    weapons := [(1, weaponFull)], lastFire := [(1, 0)], protect := [],
    respawns := [], botRespawns := [], scores := [], hist := [], simTime := 1,
    fires := [], lastInputs := [(1, inpW)], phase := RoundPhase.active,
    timeLeft := 300, endTimer := 0, jumps := [], botFSM := [], botFocus := [] }

/-- Claim C1 is violated by the code (server.rs line 1284): the
continuous-path occlusion ray is guarded by a players-map membership test on
the provisional target, so a BOT target skips the occlusion check entirely.
Here the world's first obstruction along the shot (entity 99 at distance 2)
is strictly closer than the bot candidate at distance 5 and is neither the
candidate's own collider nor any actor's, yet the Hit event is emitted and
the bot's hp drops from 100 to 65. -/
theorem bot_target_skips_occlusion :
    envC1.world ⟨0, 7/10, 0⟩ ⟨0, 0, -1⟩ 5 (lookupA envC1.ents 1) = some (99, 2) ∧
    (2 : ℚ) < 5 ∧
    some 99 ≠ lookupA envC1.ents 2 ∧
    some 99 ≠ lookupA envC1.botEnts 2 ∧
    bestRayProx ⟨0, 7/10, 0⟩ ⟨0, 0, -1⟩ 100 1 (snapOf stC1) none = some (2, 5) ∧
    contOccludedChk envC1 1 2 ⟨0, 7/10, 0⟩ ⟨0, 0, -1⟩ 5 stC1 = false ∧
    (contFireStep envC1 (snapOf stC1) 1 ⟨0, 0, 0⟩ true inpW stC1).2 =
      [EventMsg.ammoEv 1 (MAG_SIZE - 1) false,
       EventMsg.fireEv 1 ⟨0, 7/10, 0⟩ ⟨0, 0, -1⟩ none,
       EventMsg.hitEv 2 65 1] ∧
    (lookupA (contFireStep envC1 (snapOf stC1) 1 ⟨0, 0, 0⟩ true inpW stC1).1.bots
        2).map ActorState.hp = some 65 := by
  refine ⟨rfl, by norm_num, by decide, by decide, ?_, rfl, ?_, ?_⟩
  · norm_num [bestRayProx, snapOf, stC1, actorW, actorAt, Vec3.add, Vec3.sub,
      Vec3.dot, Vec3.smul, Vec3.len2, clampQ]
  · norm_num [contFireStep, contFireResolve, contOccludedChk, damageBotCont,
      bestRayProx, bestCylinderT, snapOf, stC1, envC1, geom01, worldBlock,
      actorW, actorAt, inpW, weaponFull, MAG_SIZE, HUMAN_DMG, FIRE_COOLDOWN,
      forwardFromYawPitch, rewind_pos, lookupD, lookupA, setKey,
      Vec3.add, Vec3.sub, Vec3.dot, Vec3.smul, Vec3.len2, clampQ, LAG_COMP_SEC]
  · norm_num [contFireStep, contFireResolve, contOccludedChk, damageBotCont,
      bestRayProx, bestCylinderT, snapOf, stC1, envC1, geom01, worldBlock,
      actorW, actorAt, inpW, weaponFull, MAG_SIZE, HUMAN_DMG, FIRE_COOLDOWN,
      forwardFromYawPitch, rewind_pos, lookupD, lookupA, setKey,
      Vec3.add, Vec3.sub, Vec3.dot, Vec3.smul, Vec3.len2, clampQ, LAG_COMP_SEC]


-- ===== Claim C6: per-shot accounting of bot fire =====

/-- sin 0, cos 1, and the two square roots the bot-shot scenario consults. -/
def geomC6 : Geom :=
  ⟨fun _ => 0, fun _ => 1, fun x => if x = 9 then 3 else if x = 1 then 1 else 0⟩

def envC6 : Env :=
  { geom := geomC6, world := worldNone, ents := [(1, 10)], botEnts := [(2, 20)],
    spawns := [], useSpawnPoints := true, dt := 1/60 }

/-- A combat-state bot at the origin with a full magazine and its reaction
time long elapsed, facing a living human three metres down the -Z axis. -/
def stC6 : SrvState :=
  { players := [(1, actorAt ⟨0, 0, -3⟩)], bots := [(2, actorW)],
    weapons := [(2, weaponFull)], lastFire := [], protect := [],
    respawns := [], botRespawns := [], scores := [], hist := [], simTime := 1,
    fires := [], lastInputs := [], phase := RoundPhase.active,
    timeLeft := 300, endTimer := 0, jumps := [],
    botFSM := [(2, (BotFsm.combat, 0))], botFocus := [(2, (some 1, 1))] }

/-- Claim C6 is violated by the code (server.rs lines 1102-1108): a bot shot
that reaches the damage stage decrements ammo TWICE (from the full 12 down
to 10) because the consumption at lines 1103-1104 is repeated at lines
1107-1108, and the cooldown is likewise written twice; a single Hit is
emitted for the double consumption. -/
theorem bot_shot_double_ammo_consumption :
    lookupD stC6.weapons 2 weaponFull = weaponFull ∧
    weaponFull.ammo = MAG_SIZE ∧ MAG_SIZE = 12 ∧
    (botShootStep envC6 2 actorW stC6).2 =
      [EventMsg.fireEv 2 ⟨0, 7/10, 0⟩ ⟨0, 0, -1⟩ none,
       EventMsg.hitEv 1 99 2] ∧
    lookupD (botShootStep envC6 2 actorW stC6).1.weapons 2 weaponFull =
      { ammo := MAG_SIZE - 2, cooldown := BOT_FIRE_COOLDOWN, reload := 0 } ∧
    (MAG_SIZE - 2 : Nat) ≠ MAG_SIZE - 1 := by
  refine ⟨rfl, rfl, rfl, ?_, ?_, by decide⟩
  · norm_num [botShootStep, botShootResolve, botDamage, botNearestTarget, stC6, envC6,
      geomC6, worldNone, actorW, actorAt, weaponFull, MAG_SIZE, BOT_DMG,
      BOT_REACT_SEC, BOT_FIRE_RANGE, lookupD, lookupA, setKey,
      Vec3.add, Vec3.sub, Vec3.dot, Vec3.smul, Vec3.len2, Vec3.lenG,
      Vec3.normG, Vec3.divS, max_def, min_def]
  · norm_num [botShootStep, botShootResolve, botDamage, botNearestTarget, stC6, envC6,
      geomC6, worldNone, actorW, actorAt, weaponFull, MAG_SIZE, BOT_DMG,
      BOT_REACT_SEC, BOT_FIRE_RANGE, lookupD, lookupA, setKey,
      Vec3.add, Vec3.sub, Vec3.dot, Vec3.smul, Vec3.len2, Vec3.lenG,
      Vec3.normG, Vec3.divS, max_def, min_def]


-- ===== Claim C5: hp and ammo bounds =====

/-- The per-actor health and magazine bounds of the tick-boundary invariant
(hp low bound is structural: hp is a saturating natural). -/
def Inv (st : SrvState) : Prop :=
  (∀ e ∈ st.players, e.2.hp ≤ 100) ∧ (∀ e ∈ st.bots, e.2.hp ≤ 100) ∧
  (∀ e ∈ st.weapons, e.2.ammo ≤ MAG_SIZE)

theorem setKey_pred {α : Type} (P : α → Prop) (l : List (Nat × α)) (k : Nat)
    (v : α) (hl : ∀ e ∈ l, P e.2) (hv : P v) : ∀ e ∈ setKey l k v, P e.2 := by
  intro e he
  rcases mem_setKey l k v e he with h | h
  · rw [h]; exact hv
  · exact hl e h

theorem lookupD_pred {α : Type} (P : α → Prop) (l : List (Nat × α)) (k : Nat)
    (d : α) (hl : ∀ e ∈ l, P e.2) (hd : P d) : P (lookupD l k d) := by
  unfold lookupD
  cases hx : lookupA l k with
  | none => exact hd
  | some v => exact hl (k, v) (lookupA_mem l k v hx)

theorem damageHumanCont_inv (id hitId : Nat) (hit : ActorState) (st : SrvState)
    (hp : ∀ e ∈ st.players, e.2.hp ≤ 100) (hb : ∀ e ∈ st.bots, e.2.hp ≤ 100)
    (hw : ∀ e ∈ st.weapons, e.2.ammo ≤ MAG_SIZE) (hhit : hit.hp ≤ 100) :
    (∀ e ∈ (damageHumanCont id hitId hit st).1.players, e.2.hp ≤ 100) ∧
    (∀ e ∈ (damageHumanCont id hitId hit st).1.bots, e.2.hp ≤ 100) ∧
    (∀ e ∈ (damageHumanCont id hitId hit st).1.weapons, e.2.ammo ≤ MAG_SIZE) := by
  have hsub : hit.hp - HUMAN_DMG ≤ 100 := le_trans (Nat.sub_le _ _) hhit
  simp only [damageHumanCont]
  split
  all_goals try split
  all_goals try split
  all_goals try split
  all_goals try split
  all_goals
    first
      | exact ⟨hp, hb, hw⟩
      | exact ⟨setKey_pred (fun a : ActorState => a.hp ≤ 100) _ _ _ hp hsub, hb, hw⟩
      | exact ⟨setKey_pred (fun a : ActorState => a.hp ≤ 100) _ _ _ (setKey_pred (fun a : ActorState => a.hp ≤ 100) _ _ _ hp hsub) hsub, hb, hw⟩
      | exact ⟨setKey_pred (fun a : ActorState => a.hp ≤ 100) _ _ _ (setKey_pred (fun a : ActorState => a.hp ≤ 100) _ _ _ hp hsub) hsub, hb,
          setKey_pred (fun w : WeaponStatus => w.ammo ≤ MAG_SIZE) _ _ _ hw (lookupD_pred (fun w : WeaponStatus => w.ammo ≤ MAG_SIZE) _ _ _ hw (le_refl _))⟩

theorem damageBotCont_inv (id hitId : Nat) (hit : ActorState) (st : SrvState)
    (hp : ∀ e ∈ st.players, e.2.hp ≤ 100) (hb : ∀ e ∈ st.bots, e.2.hp ≤ 100)
    (hw : ∀ e ∈ st.weapons, e.2.ammo ≤ MAG_SIZE) (hhit : hit.hp ≤ 100) :
    (∀ e ∈ (damageBotCont id hitId hit st).1.players, e.2.hp ≤ 100) ∧
    (∀ e ∈ (damageBotCont id hitId hit st).1.bots, e.2.hp ≤ 100) ∧
    (∀ e ∈ (damageBotCont id hitId hit st).1.weapons, e.2.ammo ≤ MAG_SIZE) := by
  have hsub : hit.hp - HUMAN_DMG ≤ 100 := le_trans (Nat.sub_le _ _) hhit
  simp only [damageBotCont]
  split
  all_goals try split
  all_goals
    first
      | exact ⟨hp, hb, hw⟩
      | exact ⟨hp, setKey_pred (fun a : ActorState => a.hp ≤ 100) _ _ _ hb hsub, hw⟩
      | exact ⟨hp, setKey_pred (fun a : ActorState => a.hp ≤ 100) _ _ _ (setKey_pred (fun a : ActorState => a.hp ≤ 100) _ _ _ hb hsub) hsub, hw⟩

theorem damageHumanExp_inv (id hitId : Nat) (hit : ActorState) (st : SrvState)
    (hp : ∀ e ∈ st.players, e.2.hp ≤ 100) (hb : ∀ e ∈ st.bots, e.2.hp ≤ 100)
    (hw : ∀ e ∈ st.weapons, e.2.ammo ≤ MAG_SIZE) (hhit : hit.hp ≤ 100) :
    (∀ e ∈ (damageHumanExp id hitId hit st).1.players, e.2.hp ≤ 100) ∧
    (∀ e ∈ (damageHumanExp id hitId hit st).1.bots, e.2.hp ≤ 100) ∧
    (∀ e ∈ (damageHumanExp id hitId hit st).1.weapons, e.2.ammo ≤ MAG_SIZE) := by
  have hsub : hit.hp - HUMAN_DMG ≤ 100 := le_trans (Nat.sub_le _ _) hhit
  simp only [damageHumanExp]
  split
  all_goals try split
  all_goals try split
  all_goals
    first
      | exact ⟨hp, hb, hw⟩
      | exact ⟨setKey_pred (fun a : ActorState => a.hp ≤ 100) _ _ _ hp hsub, hb, hw⟩
      | exact ⟨setKey_pred (fun a : ActorState => a.hp ≤ 100) _ _ _ (setKey_pred (fun a : ActorState => a.hp ≤ 100) _ _ _ hp hsub) hsub, hb, hw⟩

theorem damageBotExp_inv (id hitId : Nat) (hit : ActorState) (st : SrvState)
    (hp : ∀ e ∈ st.players, e.2.hp ≤ 100) (hb : ∀ e ∈ st.bots, e.2.hp ≤ 100)
    (hw : ∀ e ∈ st.weapons, e.2.ammo ≤ MAG_SIZE) (hhit : hit.hp ≤ 100) :
    (∀ e ∈ (damageBotExp id hitId hit st).1.players, e.2.hp ≤ 100) ∧
    (∀ e ∈ (damageBotExp id hitId hit st).1.bots, e.2.hp ≤ 100) ∧
    (∀ e ∈ (damageBotExp id hitId hit st).1.weapons, e.2.ammo ≤ MAG_SIZE) := by
  have hsub : hit.hp - HUMAN_DMG ≤ 100 := le_trans (Nat.sub_le _ _) hhit
  simp only [damageBotExp]
  split
  all_goals try split
  all_goals
    first
      | exact ⟨hp, hb, hw⟩
      | exact ⟨hp, setKey_pred (fun a : ActorState => a.hp ≤ 100) _ _ _ hb hsub, hw⟩
      | exact ⟨hp, setKey_pred (fun a : ActorState => a.hp ≤ 100) _ _ _ (setKey_pred (fun a : ActorState => a.hp ≤ 100) _ _ _ hb hsub) hsub, hw⟩

theorem contFireResolve_inv (env : Env) (snap : List (Nat × Vec3 × Bool))
    (id : Nat) (pos : Vec3) (inp : InputFrame) (st : SrvState)
    (hp : ∀ e ∈ st.players, e.2.hp ≤ 100) (hb : ∀ e ∈ st.bots, e.2.hp ≤ 100)
    (hw : ∀ e ∈ st.weapons, e.2.ammo ≤ MAG_SIZE) :
    (∀ e ∈ (contFireResolve env snap id pos inp st).1.players, e.2.hp ≤ 100) ∧
    (∀ e ∈ (contFireResolve env snap id pos inp st).1.bots, e.2.hp ≤ 100) ∧
    (∀ e ∈ (contFireResolve env snap id pos inp st).1.weapons,
      e.2.ammo ≤ MAG_SIZE) := by
  simp only [contFireResolve]
  split
  all_goals try split
  all_goals try split
  all_goals try split
  all_goals try split
  all_goals
    first
      | exact ⟨hp, hb, hw⟩
      | (rename_i hit heq
         exact damageHumanCont_inv _ _ _ _ hp hb hw (hp _ (lookupA_mem _ _ _ heq)))
      | (rename_i hit heq
         exact damageBotCont_inv _ _ _ _ hp hb hw (hb _ (lookupA_mem _ _ _ heq)))

theorem explicitFireResolve_inv (env : Env) (id : Nat) (origin forward : Vec3)
    (st : SrvState)
    (hp : ∀ e ∈ st.players, e.2.hp ≤ 100) (hb : ∀ e ∈ st.bots, e.2.hp ≤ 100)
    (hw : ∀ e ∈ st.weapons, e.2.ammo ≤ MAG_SIZE) :
    (∀ e ∈ (explicitFireResolve env id origin forward st).1.players,
      e.2.hp ≤ 100) ∧
    (∀ e ∈ (explicitFireResolve env id origin forward st).1.bots,
      e.2.hp ≤ 100) ∧
    (∀ e ∈ (explicitFireResolve env id origin forward st).1.weapons,
      e.2.ammo ≤ MAG_SIZE) := by
  simp only [explicitFireResolve]
  split
  all_goals try split
  all_goals try split
  all_goals try split
  all_goals
    first
      | exact ⟨hp, hb, hw⟩
      | (rename_i hit heq
         exact damageHumanExp_inv _ _ _ _ hp hb hw (hp _ (lookupA_mem _ _ _ heq)))
      | (rename_i hit heq
         exact damageBotExp_inv _ _ _ _ hp hb hw (hb _ (lookupA_mem _ _ _ heq)))

theorem contFireStep_inv (env : Env) (snap : List (Nat × Vec3 × Bool)) (id : Nat)
    (pos : Vec3) (alive : Bool) (inp : InputFrame) (st : SrvState)
    (hp : ∀ e ∈ st.players, e.2.hp ≤ 100) (hb : ∀ e ∈ st.bots, e.2.hp ≤ 100)
    (hw : ∀ e ∈ st.weapons, e.2.ammo ≤ MAG_SIZE) :
    (∀ e ∈ (contFireStep env snap id pos alive inp st).1.players, e.2.hp ≤ 100) ∧
    (∀ e ∈ (contFireStep env snap id pos alive inp st).1.bots, e.2.hp ≤ 100) ∧
    (∀ e ∈ (contFireStep env snap id pos alive inp st).1.weapons,
      e.2.ammo ≤ MAG_SIZE) := by
  have hwd : (lookupD st.weapons id weaponFull).ammo ≤ MAG_SIZE :=
    lookupD_pred (fun w : WeaponStatus => w.ammo ≤ MAG_SIZE) _ _ _ hw (le_refl _)
  simp only [contFireStep]
  split
  all_goals try split
  all_goals try split
  all_goals try split
  all_goals try split
  all_goals
    first
      | exact ⟨hp, hb, setKey_pred (fun w : WeaponStatus => w.ammo ≤ MAG_SIZE) _ _ _ hw hwd⟩
      | exact ⟨hp, hb, setKey_pred (fun w : WeaponStatus => w.ammo ≤ MAG_SIZE) _ _ _ (setKey_pred (fun w : WeaponStatus => w.ammo ≤ MAG_SIZE) _ _ _ hw hwd) hwd⟩
      | exact contFireResolve_inv env snap id pos inp _ hp hb
          (setKey_pred (fun w : WeaponStatus => w.ammo ≤ MAG_SIZE) _ _ _ (setKey_pred (fun w : WeaponStatus => w.ammo ≤ MAG_SIZE) _ _ _ hw hwd)
            (le_trans (Nat.sub_le _ _) hwd))

theorem explicitFireStep_inv (env : Env) (id : Nat) (inp : InputFrame)
    (origin forward : Vec3) (st : SrvState)
    (hp : ∀ e ∈ st.players, e.2.hp ≤ 100) (hb : ∀ e ∈ st.bots, e.2.hp ≤ 100)
    (hw : ∀ e ∈ st.weapons, e.2.ammo ≤ MAG_SIZE) :
    (∀ e ∈ (explicitFireStep env id inp origin forward st).1.players,
      e.2.hp ≤ 100) ∧
    (∀ e ∈ (explicitFireStep env id inp origin forward st).1.bots,
      e.2.hp ≤ 100) ∧
    (∀ e ∈ (explicitFireStep env id inp origin forward st).1.weapons,
      e.2.ammo ≤ MAG_SIZE) := by
  have hwd : (lookupD st.weapons id weaponFull).ammo ≤ MAG_SIZE :=
    lookupD_pred (fun w : WeaponStatus => w.ammo ≤ MAG_SIZE) _ _ _ hw (le_refl _)
  simp only [explicitFireStep]
  split
  all_goals try split
  all_goals try split
  all_goals
    first
      | exact ⟨hp, hb, setKey_pred (fun w : WeaponStatus => w.ammo ≤ MAG_SIZE) _ _ _ hw hwd⟩
      | exact ⟨hp, hb, setKey_pred (fun w : WeaponStatus => w.ammo ≤ MAG_SIZE) _ _ _ (setKey_pred (fun w : WeaponStatus => w.ammo ≤ MAG_SIZE) _ _ _ hw hwd) hwd⟩
      | exact explicitFireResolve_inv env id origin forward _ hp hb
          (setKey_pred (fun w : WeaponStatus => w.ammo ≤ MAG_SIZE) _ _ _ (setKey_pred (fun w : WeaponStatus => w.ammo ≤ MAG_SIZE) _ _ _ hw hwd)
            (le_trans (Nat.sub_le _ _) hwd))

theorem actorFireStep_inv (env : Env) (snap : List (Nat × Vec3 × Bool))
    (id : Nat) (pos : Vec3) (alive : Bool) (fm : List (Nat × Vec3 × Vec3))
    (st : SrvState)
    (hp : ∀ e ∈ st.players, e.2.hp ≤ 100) (hb : ∀ e ∈ st.bots, e.2.hp ≤ 100)
    (hw : ∀ e ∈ st.weapons, e.2.ammo ≤ MAG_SIZE) :
    (∀ e ∈ (actorFireStep env snap id pos alive fm st).1.players,
      e.2.hp ≤ 100) ∧
    (∀ e ∈ (actorFireStep env snap id pos alive fm st).1.bots, e.2.hp ≤ 100) ∧
    (∀ e ∈ (actorFireStep env snap id pos alive fm st).1.weapons,
      e.2.ammo ≤ MAG_SIZE) := by
  simp only [actorFireStep]
  split
  · exact ⟨hp, hb, hw⟩
  · split
    · exact explicitFireStep_inv env id _ _ _ st hp hb hw
    · exact contFireStep_inv env snap id pos alive _ st hp hb hw

theorem firePass_inv (env : Env) (snap0 : List (Nat × Vec3 × Bool)) :
    ∀ (l : List (Nat × Vec3 × Bool)) (fm : List (Nat × Vec3 × Vec3))
      (st : SrvState),
      (∀ e ∈ st.players, e.2.hp ≤ 100) → (∀ e ∈ st.bots, e.2.hp ≤ 100) →
      (∀ e ∈ st.weapons, e.2.ammo ≤ MAG_SIZE) →
      (∀ e ∈ (firePass env snap0 l fm st).1.players, e.2.hp ≤ 100) ∧
      (∀ e ∈ (firePass env snap0 l fm st).1.bots, e.2.hp ≤ 100) ∧
      (∀ e ∈ (firePass env snap0 l fm st).1.weapons, e.2.ammo ≤ MAG_SIZE)
  | [], fm, st => fun hp hb hw => ⟨hp, hb, hw⟩
  | ⟨id, pos, alive⟩ :: rest, fm, st => fun hp hb hw => by
      obtain ⟨h1, h2, h3⟩ := actorFireStep_inv env snap0 id pos alive fm st hp hb hw
      exact firePass_inv env snap0 rest
        (actorFireStep env snap0 id pos alive fm st).2.1
        (actorFireStep env snap0 id pos alive fm st).1 h1 h2 h3

theorem tickWeapons_inv (dt : ℚ) :
    ∀ (l : List (Nat × WeaponStatus)), (∀ e ∈ l, e.2.ammo ≤ MAG_SIZE) →
      ∀ e ∈ (tickWeapons dt l).1, e.2.ammo ≤ MAG_SIZE
  | [] => fun _ => by simp [tickWeapons]
  | (id, w) :: rest => fun h => by
      intro e he
      simp only [tickWeapons] at he
      rcases List.mem_cons.mp he with he | he
      · rw [he]
        have hwm : w.ammo ≤ MAG_SIZE := h (id, w) (by simp)
        simp only [tickWeapon]
        split
        · split
          · exact le_refl _
          · exact hwm
        · exact hwm
      · exact tickWeapons_inv dt rest (fun e' he' => h e' (List.mem_cons_of_mem _ he')) e he

theorem respawnApply_inv (env : Env) :
    ∀ (l : List Nat) (st : SrvState),
      (∀ e ∈ st.players, e.2.hp ≤ 100) → (∀ e ∈ st.bots, e.2.hp ≤ 100) →
      (∀ e ∈ st.weapons, e.2.ammo ≤ MAG_SIZE) →
      (∀ e ∈ (respawnApply env l st).1.players, e.2.hp ≤ 100) ∧
      (∀ e ∈ (respawnApply env l st).1.bots, e.2.hp ≤ 100) ∧
      (∀ e ∈ (respawnApply env l st).1.weapons, e.2.ammo ≤ MAG_SIZE)
  | [], st => fun hp hb hw => ⟨hp, hb, hw⟩
  | pid :: rest, st => fun hp hb hw => by
      cases hpl : lookupA st.players pid with
      | none =>
          simp only [respawnApply, hpl]
          exact respawnApply_inv env rest _ hp hb
            (setKey_pred (fun w : WeaponStatus => w.ammo ≤ MAG_SIZE) _ _ _ hw (le_refl _))
      | some p =>
          simp only [respawnApply, hpl]
          exact respawnApply_inv env rest _
            (setKey_pred (fun a : ActorState => a.hp ≤ 100) _ _ _ hp (le_refl _)) hb
            (setKey_pred (fun w : WeaponStatus => w.ammo ≤ MAG_SIZE) _ _ _ hw (le_refl _))

theorem respawnPass_inv (env : Env) (st : SrvState)
    (hp : ∀ e ∈ st.players, e.2.hp ≤ 100) (hb : ∀ e ∈ st.bots, e.2.hp ≤ 100)
    (hw : ∀ e ∈ st.weapons, e.2.ammo ≤ MAG_SIZE) :
    (∀ e ∈ (respawnPass env st).1.players, e.2.hp ≤ 100) ∧
    (∀ e ∈ (respawnPass env st).1.bots, e.2.hp ≤ 100) ∧
    (∀ e ∈ (respawnPass env st).1.weapons, e.2.ammo ≤ MAG_SIZE) := by
  simp only [respawnPass]
  exact respawnApply_inv env _ _ hp hb hw

theorem srvShootTick_inv (env : Env) (st : SrvState)
    (hp : ∀ e ∈ st.players, e.2.hp ≤ 100) (hb : ∀ e ∈ st.bots, e.2.hp ≤ 100)
    (hw : ∀ e ∈ st.weapons, e.2.ammo ≤ MAG_SIZE) :
    (∀ e ∈ (srvShootTick env st).1.players, e.2.hp ≤ 100) ∧
    (∀ e ∈ (srvShootTick env st).1.bots, e.2.hp ≤ 100) ∧
    (∀ e ∈ (srvShootTick env st).1.weapons, e.2.ammo ≤ MAG_SIZE) := by
  simp only [srvShootTick]
  split
  · exact ⟨hp, hb, hw⟩
  · obtain ⟨f1, f2, f3⟩ :=
      firePass_inv env
        (snapOf { st with weapons := (tickWeapons env.dt st.weapons).1 })
        (snapOf { st with weapons := (tickWeapons env.dt st.weapons).1 })
        (buildFiremap env.geom st.fires)
        { st with weapons := (tickWeapons env.dt st.weapons).1, fires := [] }
        hp hb (tickWeapons_inv env.dt st.weapons hw)
    exact respawnPass_inv env _ f1 f2 f3

theorem botDamage_inv (id hitId : Nat) (hitm : ActorState) (st : SrvState)
    (hp : ∀ e ∈ st.players, e.2.hp ≤ 100) (hb : ∀ e ∈ st.bots, e.2.hp ≤ 100)
    (hw : ∀ e ∈ st.weapons, e.2.ammo ≤ MAG_SIZE) (hhit : hitm.hp ≤ 100) :
    (∀ e ∈ (botDamage id hitId hitm st).1.players, e.2.hp ≤ 100) ∧
    (∀ e ∈ (botDamage id hitId hitm st).1.bots, e.2.hp ≤ 100) ∧
    (∀ e ∈ (botDamage id hitId hitm st).1.weapons, e.2.ammo ≤ MAG_SIZE) := by
  have hsub : hitm.hp - BOT_DMG ≤ 100 := le_trans (Nat.sub_le _ _) hhit
  simp only [botDamage]
  split
  all_goals try split
  all_goals
    first
      | exact ⟨hp, hb, hw⟩
      | exact ⟨setKey_pred (fun a : ActorState => a.hp ≤ 100) _ _ _ hp hsub, hb, hw⟩
      | exact ⟨setKey_pred (fun a : ActorState => a.hp ≤ 100) _ _ _
          (setKey_pred (fun a : ActorState => a.hp ≤ 100) _ _ _ hp hsub) hsub,
          hb, hw⟩

theorem botDamage_setKey_inv (id hitId : Nat) (hitm : ActorState)
    (st : SrvState) (w2 : WeaponStatus)
    (hp : ∀ e ∈ st.players, e.2.hp ≤ 100) (hb : ∀ e ∈ st.bots, e.2.hp ≤ 100)
    (hw : ∀ e ∈ st.weapons, e.2.ammo ≤ MAG_SIZE) (hhit : hitm.hp ≤ 100)
    (hw2 : w2.ammo ≤ MAG_SIZE) :
    (∀ e ∈ (botDamage id hitId hitm st).1.players, e.2.hp ≤ 100) ∧
    (∀ e ∈ (botDamage id hitId hitm st).1.bots, e.2.hp ≤ 100) ∧
    (∀ e ∈ setKey (botDamage id hitId hitm st).1.weapons id w2,
      e.2.ammo ≤ MAG_SIZE) := by
  obtain ⟨d1, d2, d3⟩ := botDamage_inv id hitId hitm st hp hb hw hhit
  exact ⟨d1, d2, setKey_pred (fun x : WeaponStatus => x.ammo ≤ MAG_SIZE) _ _ _ d3 hw2⟩

theorem botShootResolve_inv (env : Env) (id : Nat) (w : WeaponStatus)
    (origin : Vec3) (st : SrvState)
    (hp : ∀ e ∈ st.players, e.2.hp ≤ 100) (hb : ∀ e ∈ st.bots, e.2.hp ≤ 100)
    (hw : ∀ e ∈ st.weapons, e.2.ammo ≤ MAG_SIZE) (hwa : w.ammo ≤ MAG_SIZE) :
    (∀ e ∈ (botShootResolve env id w origin st).1.players, e.2.hp ≤ 100) ∧
    (∀ e ∈ (botShootResolve env id w origin st).1.bots, e.2.hp ≤ 100) ∧
    (∀ e ∈ (botShootResolve env id w origin st).1.weapons,
      e.2.ammo ≤ MAG_SIZE) := by
  simp only [botShootResolve]
  split
  all_goals try split
  all_goals try split
  all_goals try split
  all_goals try split
  all_goals try split
  all_goals try split
  all_goals
    first
      | exact ⟨hp, hb, hw⟩
      | exact ⟨hp, hb, setKey_pred (fun x : WeaponStatus => x.ammo ≤ MAG_SIZE) _ _ _ hw
          (le_trans (Nat.sub_le _ _) hwa)⟩
      | (rename_i hitm heq
         apply botDamage_setKey_inv
         · exact hp
         · exact hb
         · exact hw
         · exact hp _ (lookupA_mem _ _ _ heq)
         · exact le_trans (Nat.sub_le _ _) (le_trans (Nat.sub_le _ _) hwa))

theorem botShootStep_inv (env : Env) (id : Nat) (b : ActorState) (st : SrvState)
    (hp : ∀ e ∈ st.players, e.2.hp ≤ 100) (hb : ∀ e ∈ st.bots, e.2.hp ≤ 100)
    (hw : ∀ e ∈ st.weapons, e.2.ammo ≤ MAG_SIZE) :
    (∀ e ∈ (botShootStep env id b st).1.players, e.2.hp ≤ 100) ∧
    (∀ e ∈ (botShootStep env id b st).1.bots, e.2.hp ≤ 100) ∧
    (∀ e ∈ (botShootStep env id b st).1.weapons, e.2.ammo ≤ MAG_SIZE) := by
  have hwd : (lookupD st.weapons id weaponFull).ammo ≤ MAG_SIZE :=
    lookupD_pred (fun x : WeaponStatus => x.ammo ≤ MAG_SIZE) _ _ _ hw (le_refl _)
  have hw1 : ∀ e ∈ setKey st.weapons id (lookupD st.weapons id weaponFull),
      e.2.ammo ≤ MAG_SIZE :=
    setKey_pred (fun x : WeaponStatus => x.ammo ≤ MAG_SIZE) _ _ _ hw hwd
  simp only [botShootStep]
  split
  all_goals try split
  all_goals try split
  all_goals try split
  all_goals try split
  all_goals
    first
      | exact ⟨hp, hb, hw⟩
      | exact ⟨hp, hb, hw1⟩
      | exact ⟨hp, hb, setKey_pred (fun x : WeaponStatus => x.ammo ≤ MAG_SIZE) _ _ _ hw1 hwd⟩
      | exact botShootResolve_inv env id _ _ _ hp hb hw1 hwd

theorem roundRespawnAll_hp (env : Env) :
    ∀ (ids : List Nat) (players : List (Nat × ActorState))
      (jumps : List (Nat × Nat)),
      (∀ e ∈ players, e.2.hp ≤ 100) →
      ∀ e ∈ (roundRespawnAll env ids players jumps).1, e.2.hp ≤ 100
  | [], _, _ => fun h => h
  | id :: ids, players, jumps => fun h => by
      cases hpl : lookupA players id with
      | none =>
          simp only [roundRespawnAll, hpl]
          exact roundRespawnAll_hp env ids players jumps h
      | some p =>
          simp only [roundRespawnAll, hpl]
          exact roundRespawnAll_hp env ids _ _
            (setKey_pred (fun a : ActorState => a.hp ≤ 100) _ _ _ h (le_refl _))

theorem round_update_inv (env : Env) (st : SrvState)
    (hp : ∀ e ∈ st.players, e.2.hp ≤ 100) (hb : ∀ e ∈ st.bots, e.2.hp ≤ 100)
    (hw : ∀ e ∈ st.weapons, e.2.ammo ≤ MAG_SIZE) :
    (∀ e ∈ (round_update env st).1.players, e.2.hp ≤ 100) ∧
    (∀ e ∈ (round_update env st).1.bots, e.2.hp ≤ 100) ∧
    (∀ e ∈ (round_update env st).1.weapons, e.2.ammo ≤ MAG_SIZE) := by
  simp only [round_update]
  split
  · split
    · exact ⟨hp, hb, hw⟩
    · exact ⟨hp, hb, hw⟩
  · split
    · exact ⟨roundRespawnAll_hp env _ _ _ hp, hb, hw⟩
    · exact ⟨hp, hb, hw⟩

/-- Claim C5: the combat tick, the bot shot and the round update each
preserve the bounds 0 ≤ hp ≤ 100 (the low bound structural: hp is a
saturating natural) and ammo ≤ MAG_SIZE for every actor's entry. -/
theorem hp_ammo_invariants (env : Env) (st : SrvState) (id : Nat)
    (b : ActorState) (h : Inv st) :
    Inv (srvShootTick env st).1 ∧ Inv (botShootStep env id b st).1 ∧
    Inv (round_update env st).1 := by
  obtain ⟨hp, hb, hw⟩ := h
  exact ⟨srvShootTick_inv env st hp hb hw, botShootStep_inv env id b st hp hb hw,
    round_update_inv env st hp hb hw⟩

/-- Witness for hp_ammo_invariants at the concrete combat state stC6. -/
theorem hp_ammo_invariants_witness :
    Inv stC6 ∧
    (Inv (srvShootTick envC6 stC6).1 ∧ Inv (botShootStep envC6 2 actorW stC6).1 ∧
     Inv (round_update envC6 stC6).1) :=
  ⟨⟨by decide, by decide, by decide⟩,
   hp_ammo_invariants envC6 stC6 2 actorW ⟨by decide, by decide, by decide⟩⟩

end Campus
